import Mathlib

/-!
Verification of the Taxiologists backend core against its specification.

JavaScript numbers are modelled as exact rationals (ℚ); machine-float
representation error is out of scope, but the explicit `Number.EPSILON`
nudge in the source's rounding helper is kept.  Absent / undefined JSON
fields are modelled with `Option`; the source's `num` / `int` coercions
(`parseFloat(v ?? 0)`, `parseInt(v ?? 0, 10)`) become `Option.getD _ 0`
restricted to numeric-or-missing inputs.  Fallible code returns `Except`.
-/

namespace Taxi

/-- Number.EPSILON = 2⁻⁵² as an exact rational. -/
def jsEpsilon : ℚ := 1 / 2 ^ 52

/-- Service helper `round2(n) = Math.round((Number(n) + Number.EPSILON) * 100) / 100`
(src/services/reportCalculationService.js).  `Math.round x = ⌊x + 1/2⌋`
(half-up towards +∞). -/
def round2 (q : ℚ) : ℚ := (⌊(q + jsEpsilon) * 100 + 1 / 2⌋ : ℚ) / 100

/-- `Number(x.toFixed(2))`: round to 2 decimals, ties towards +∞
(ECMA-262 picks the larger candidate). Used by rideController fare math. -/
def toFixed2 (q : ℚ) : ℚ := (⌊q * 100 + 1 / 2⌋ : ℚ) / 100

/-- Service helper `num(v) = parseFloat(v ?? 0)` (NaN → 0), on
numeric-or-missing input. -/
def num (v : Option ℚ) : ℚ := v.getD 0

/-- Service helper `int(v) = parseInt(v ?? 0, 10)` (NaN → 0), on
integer-or-missing input. -/
def int (v : Option ℤ) : ℤ := v.getD 0

/-! ## Report calculation service (src/services/reportCalculationService.js) -/

/-- Calculation settings `{rentalRatePercentage, tripLevyRate}`. -/
structure CalcSettings where
  rentalRatePercentage : ℚ
  tripLevyRate : ℚ
  deriving DecidableEq, Repr

/-- `DEFAULT_SETTINGS = { rentalRatePercentage: 45, tripLevyRate: 1.32 }`
(the gstRate member is unused by the totals calculation). -/
def DEFAULT_SETTINGS : CalcSettings := { rentalRatePercentage := 45, tripLevyRate := 132 / 100 }

/-- The input fields of a driver report that the calculation service reads.
Each field models the corresponding JS access path (`shiftStartTotal` is
`reportData.shiftStartTotal?.amount`, etc.); `none` is an absent field. -/
structure ReportData where
  shiftStartTotal : Option ℚ
  shiftEndTotal : Option ℚ
  liftings : Option ℚ
  cashFares : Option ℚ
  totalEFTPOS : Option ℚ
  totalAccountTrips : Option ℚ
  cashExpenses : Option ℚ
  totalTripsCount : Option ℤ
  deriving DecidableEq, Repr

/-- `canCalculateTotals(reportData)`: both meter totals coerce to finite
numbers (always true over ℚ) and end ≥ start. -/
def canCalculateTotals (r : ReportData) : Bool :=
  num r.shiftEndTotal ≥ num r.shiftStartTotal

/-- The numeric members of the `breakdown` object returned alongside the
calculations (the two display strings are omitted). -/
structure Breakdown where
  shiftStart : ℚ
  shiftEnd : ℚ
  shiftDifference : ℚ
  liftings : ℚ
  cashFares : ℚ
  totalEFTPOS : ℚ
  totalAccountTrips : ℚ
  cashExpenses : ℚ
  totalTripsCount : ℤ
  deriving DecidableEq, Repr

/-- The calculations object produced by the service.  `partFlag` models the
JS `partial` boolean tag; `calculatedAt` (wall-clock time) is omitted. -/
structure Calculations where
  shiftTotalFares : ℚ
  totalFareAndLiftings : ℚ
  rentals : ℚ
  subTotal : ℚ
  tripLevy : ℚ
  driverNetPay : ℚ
  operatorEarnings : ℚ
  rentalRateUsed : ℚ
  partFlag : Bool
  breakdown : Breakdown
  deriving DecidableEq, Repr

/-- `zeroCalcs(settings, breakdownOverrides)`: the all-zero calculations
object tagged as incomplete; the breakdown overrides fill in the raw
inputs (the base breakdown's `shiftDifference` stays 0). -/
def zeroCalcs (s : CalcSettings) (b : Breakdown) : Calculations :=
  { shiftTotalFares := 0
    totalFareAndLiftings := 0
    rentals := 0
    subTotal := 0
    tripLevy := 0
    driverNetPay := 0
    operatorEarnings := 0
    rentalRateUsed := s.rentalRatePercentage
    partFlag := true
    breakdown := b }

/-- `calculateReportTotals(reportData, customSettings, { allowPartial })`.
`allowPart` models the `allowPartial` option (default false at every call
site in the repository).  Thrown errors become `.error` with the rethrown
message prefix from the outer catch block. -/
def calculateReportTotals (r : ReportData) (s : CalcSettings) (allowPart : Bool) :
    Except String Calculations :=
  let shiftStartTotal := num r.shiftStartTotal
  let shiftEndTotal := num r.shiftEndTotal
  let liftings := num r.liftings
  let cashFares := num r.cashFares
  let totalEFTPOS := num r.totalEFTPOS
  let totalAccountTrips := num r.totalAccountTrips
  let cashExpenses := num r.cashExpenses
  let totalTripsCount := int r.totalTripsCount
  if ¬ canCalculateTotals r then
    if allowPart then
      .ok (zeroCalcs s
        { shiftStart := shiftStartTotal
          shiftEnd := shiftEndTotal
          shiftDifference := 0
          liftings := liftings
          cashFares := cashFares
          totalEFTPOS := totalEFTPOS
          totalAccountTrips := totalAccountTrips
          cashExpenses := cashExpenses
          totalTripsCount := totalTripsCount })
    else if shiftEndTotal < shiftStartTotal then
      .error "Failed to calculate report totals: Shift end total cannot be less than shift start total"
    else
      .error "Failed to calculate report totals: Insufficient data to calculate totals"
  else
    let shiftTotalFares := shiftEndTotal - shiftStartTotal
    let totalFareAndLiftings := shiftTotalFares + liftings + cashFares
    let rentals := totalFareAndLiftings * s.rentalRatePercentage / 100
    let subTotal := rentals - (totalEFTPOS + totalAccountTrips + cashExpenses)
    let tripLevy := (totalTripsCount : ℚ) * s.tripLevyRate
    let driverNetPay := -(subTotal + tripLevy)
    let operatorEarnings := totalFareAndLiftings - rentals
    .ok
      { shiftTotalFares := round2 shiftTotalFares
        totalFareAndLiftings := round2 totalFareAndLiftings
        rentals := round2 rentals
        subTotal := round2 subTotal
        tripLevy := round2 tripLevy
        driverNetPay := round2 driverNetPay
        operatorEarnings := round2 operatorEarnings
        rentalRateUsed := s.rentalRatePercentage
        partFlag := false
        breakdown :=
          { shiftStart := shiftStartTotal
            shiftEnd := shiftEndTotal
            shiftDifference := shiftTotalFares
            liftings := liftings
            cashFares := cashFares
            totalEFTPOS := totalEFTPOS
            totalAccountTrips := totalAccountTrips
            cashExpenses := cashExpenses
            totalTripsCount := totalTripsCount } }

/-- Result of `validateCalculations`. -/
structure ValidationResult where
  isValid : Bool
  errors : List String
  deriving DecidableEq, Repr

/-- `validateCalculations(calculations, inputData)`; `inputTrips` models
`inputData.totalTripsCount ?? 0`. -/
def validateCalculations (c : Calculations) (inputTrips : Option ℤ) : ValidationResult :=
  let errors :=
    (if c.shiftTotalFares < 0 then ["Shift total fares cannot be negative"] else []) ++
    (if c.totalFareAndLiftings < 0 then ["Total fare and liftings cannot be negative"] else []) ++
    (if c.rentals > c.totalFareAndLiftings then
      ["Rentals cannot exceed total fare and liftings"] else []) ++
    (if inputTrips.getD 0 < 0 then ["Total trips count cannot be negative"] else [])
  { isValid := errors.isEmpty, errors := errors }

/-- The draft-editing recalculation in `updateDriverReport`
(src/controllers/driverReportController.js line 372): the service is
invoked with no options object, so `allowPartial` defaults to false. -/
def updateDraftRecalc (r : ReportData) (s : CalcSettings) : Except String Calculations :=
  calculateReportTotals r s false

/-! ## GST settings (src/controllers/settingsController.js) -/

/-- `DEFAULT_GST_RATE = 11` — the default GST divisor. -/
def DEFAULT_GST_RATE : ℚ := 11

/-- `calculateGST(farePerPerson) = Number((farePerPerson / gstDivisor).toFixed(2))`
with the configured divisor. -/
def calculateGST (farePerPerson : ℚ) (gstDivisor : ℚ) : ℚ :=
  toFixed2 (farePerPerson / gstDivisor)

/-! ## Core data model (src/models, src/utils/constants.js) -/

/-- `ROLES = { ADMIN, MANAGER, DRIVER }`. -/
inductive Role
  | admin
  | manager
  | driver
  deriving DecidableEq, Repr

/-- `DRIVER_STATUS = { FREE: "free", ON_RIDE: "on_ride", DROPPED: "dropped" }`. -/
inductive DriverAvail
  | free
  | on_ride
  | dropped
  deriving DecidableEq, Repr

/-- Ride `status` enum (src/models/Ride.js). -/
inductive RideStatus
  | scheduled
  | assigned
  | accepted
  | started
  | completed
  | rejected
  | cancelled
  | aborted
  deriving DecidableEq, Repr

/-- The authenticated request actor `req.user`. -/
structure Actor where
  id : ℕ
  role : Role
  deriving DecidableEq, Repr

/-- Ride fare breakdown `fare{total, perPerson, halfFare, gst}`. -/
structure Fare where
  total : ℚ
  perPerson : ℚ
  halfFare : ℚ
  gst : ℚ
  deriving DecidableEq, Repr

/-- The ride document fields the controllers touch.  Lifecycle timestamps
are modelled as set/unset flags; `driver` is `none` for unassigned
scheduled bookings (the schema allows `driver: null`). -/
structure Ride where
  isQuickTrip : Bool
  isSelfAssigned : Bool
  clients : List ℕ
  fromDest : ℕ
  toDest : ℕ
  passengers : ℤ
  fare : Fare
  driver : Option ℕ
  status : RideStatus
  acceptedAt : Bool
  startedAt : Bool
  droppedAt : Bool
  cancelledAt : Bool
  rejectedAt : Bool
  abortedAt : Bool
  shift : Option ℕ
  deriving DecidableEq, Repr

/-- A shift document (src/models/Shift.js).  The schema has fields
driver/taxiNumber/startMeter/startMeterPhoto/startTime/endTime/isActive
and **no `status` field**; activity is the boolean `isActive`. -/
structure ShiftRec where
  id : ℕ
  driver : ℕ
  taxiNumber : String
  startMeter : ℚ
  startMeterPhoto : String
  isActive : Bool
  endTimeSet : Bool
  deriving DecidableEq, Repr

/-- A query condition on the Shift collection, one per filter key. -/
inductive ShiftCond
  | driverEq (d : ℕ)
  | statusEq (s : String)
  | isActiveEq (b : Bool)
  deriving DecidableEq, Repr

/-- The filter key a condition constrains. -/
def condField : ShiftCond → String
  | .driverEq _ => "driver"
  | .statusEq _ => "status"
  | .isActiveEq _ => "isActive"

/-- The paths defined by the Shift schema (src/models/Shift.js). -/
def shiftSchemaFields : List String :=
  ["driver", "taxiNumber", "startMeter", "startMeterPhoto", "startTime", "endTime", "isActive"]

/-- Whether a shift document satisfies one condition.  A `status` equality
can never hold: no shift document has a `status` field. -/
def matchesCond (s : ShiftRec) : ShiftCond → Bool
  | .driverEq d => s.driver == d
  | .statusEq _ => false
  | .isActiveEq b => s.isActive == b

/-- `Shift.findOne(filter)` under the application's
`mongoose.set("strictQuery", true)` (src/config/db.js): filter paths that
are not in the schema are stripped before matching. -/
def shiftFindOne (store : List ShiftRec) (conds : List ShiftCond) : Option ShiftRec :=
  store.find? fun s =>
    (conds.filter fun c => shiftSchemaFields.contains (condField c)).all (matchesCond s)

/-- The world a single ride's endpoint handlers act on: the ride, the
driver-availability map, the user registry, the shift store, the
client/destination registries, the GST divisor setting, and a fresh-id
counter for documents the handlers create. -/
structure World where
  ride : Ride
  avail : ℕ → DriverAvail
  roleOf : ℕ → Option Role
  shifts : List ShiftRec
  clientsReg : List ℕ
  destReg : List ℕ
  gstDivisor : ℚ
  nextId : ℕ

/-- Point update of the availability map (`User.findByIdAndUpdate(id, {status})`). -/
def setAvail (f : ℕ → DriverAvail) (d : ℕ) (v : DriverAvail) : ℕ → DriverAvail :=
  fun x => if x = d then v else f x

/-- `Shift.findOne({ driver, isActive: true })`. -/
def activeShiftFor (w : World) (d : ℕ) : Option ShiftRec :=
  shiftFindOne w.shifts [.driverEq d, .isActiveEq true]

/-- Error responses (`code` fields) of the controllers.  `thrown` stands
for an uncaught exception forwarded to the error handler (HTTP 500), such
as `ride.driver.toString()` on a null driver. -/
inductive ErrCode
  | VALIDATION_ERROR
  | NOT_FOUND
  | FORBIDDEN
  | INVALID_TRANSITION
  | INVALID_STATUS
  | RIDE_NOT_STARTED
  | ALREADY_STARTED
  | NO_ACTIVE_SHIFT
  | INVALID_DRIVER
  | DRIVER_NOT_FREE
  | INVALID_REASON
  | NEW_CLIENTS_NOT_ALLOWED
  | INVALID_CLIENTS
  | INVALID_DESTINATION
  | NOT_QUICK_TRIP
  | REPORT_INCOMPLETE
  | CALCULATION_ERROR
  | CONFLICT
  | thrown
  deriving DecidableEq, Repr

/-! ## Ride controller (src/controllers/rideController.js)

Each handler is modelled from the source at the point where
`Ride.findById` has succeeded (the `NOT_FOUND` early return happens
before any read of mutable state and is omitted).  Mongoose documents are
mutated in memory but persist only at `ride.save()`, so an early error
return leaves the stored ride unchanged; `User.findByIdAndUpdate` writes
immediately.  Notifications and response payloads are dropped. -/

/-- `PATCH /api/rides/:id/status` — `updateRideStatus`. -/
def updateRideStatus (w : World) (actor : Actor) (status : String) :
    World × Option ErrCode :=
  if status ∉ ["accepted", "cancelled", "completed"] then (w, some .VALIDATION_ERROR)
  else
    match w.ride.driver with
    | none => (w, some .thrown)
    | some d =>
      let isSelfDriver := actor.role = Role.driver ∧ actor.id = d
      let isStaff := actor.role = Role.admin ∨ actor.role = Role.manager
      if ¬ (isSelfDriver ∨ isStaff) then (w, some .FORBIDDEN)
      else if w.ride.status = .assigned ∧ status = "accepted" then
        ({ w with ride := { w.ride with status := .accepted, acceptedAt := true } }, none)
      else if w.ride.status ∈ [.assigned, .accepted, .started] ∧ status = "cancelled" then
        ({ w with
            ride := { w.ride with status := .cancelled, cancelledAt := true }
            avail := setAvail w.avail d .free }, none)
      else if w.ride.status = .started ∧ status = "completed" then
        if ¬ w.ride.startedAt then (w, some .RIDE_NOT_STARTED)
        else
          ({ w with
              ride := { w.ride with status := .completed, droppedAt := true }
              avail := setAvail w.avail d .free }, none)
      else (w, some .INVALID_TRANSITION)

/-- `PATCH /api/rides/:id/accept` — `acceptRide` (driver route). -/
def acceptRide (w : World) (actor : Actor) : World × Option ErrCode :=
  match w.ride.driver with
  | none => (w, some .thrown)
  | some d =>
    if actor.id ≠ d then (w, some .FORBIDDEN)
    else if w.ride.status ≠ .assigned then (w, some .INVALID_STATUS)
    else
      match activeShiftFor w actor.id with
      | none => (w, some .NO_ACTIVE_SHIFT)
      | some sh =>
        ({ w with
            ride := { w.ride with status := .accepted, acceptedAt := true, shift := some sh.id }
            avail := setAvail w.avail d .on_ride }, none)

/-- `PATCH /api/rides/:id/reject` — `rejectRide`. -/
def rejectRide (w : World) (actor : Actor) : World × Option ErrCode :=
  match w.ride.driver with
  | none => (w, some .thrown)
  | some d =>
    if actor.id ≠ d then (w, some .FORBIDDEN)
    else if w.ride.status ≠ .assigned then (w, some .INVALID_STATUS)
    else
      ({ w with
          ride := { w.ride with status := .rejected, rejectedAt := true }
          avail := setAvail w.avail d .free }, none)

/-- `PATCH /api/rides/:id/start` — `startRide`. -/
def startRide (w : World) (actor : Actor) : World × Option ErrCode :=
  match w.ride.driver with
  | none => (w, some .thrown)
  | some d =>
    if actor.id ≠ d then (w, some .FORBIDDEN)
    else if w.ride.status ≠ .accepted then (w, some .INVALID_STATUS)
    else if w.ride.startedAt then (w, some .ALREADY_STARTED)
    else
      match activeShiftFor w actor.id with
      | none => (w, some .NO_ACTIVE_SHIFT)
      | some sh =>
        ({ w with
            ride :=
              { w.ride with
                shift := if w.ride.shift = none then some sh.id else w.ride.shift
                startedAt := true
                status := .started } }, none)

/-- Request body of `dropRide`. -/
structure DropArgs where
  fareTotal : Option ℚ
  fromDest : Option ℕ
  toDest : Option ℕ
  passengers : Option ℤ
  additionalClientIds : List ℕ
  additionalClients : List String
  deriving DecidableEq, Repr

/-- The success-path commit of `dropRide`: the single `ride.save()` plus
the follow-up `User.findByIdAndUpdate(ride.driver, {status: FREE})`.
Per-person fare always recomputes from the final total and final client
count; `passengers` is overwritten with the total client count. -/
def dropRideCommit (w : World) (d : ℕ) (shift1 : Option ℕ) (from1 to1 : Option ℕ)
    (clients1 : List ℕ) (updatedTotal : ℚ) : World :=
  let cnt := clients1.length
  let farePerPerson := if cnt > 0 then toFixed2 (updatedTotal / (cnt : ℚ)) else 0
  let halfFare := toFixed2 (updatedTotal / 2)
  let gst := calculateGST farePerPerson w.gstDivisor
  { w with
    ride :=
      { w.ride with
        fromDest := from1.getD w.ride.fromDest
        toDest := to1.getD w.ride.toDest
        clients := clients1
        fare := ⟨updatedTotal, farePerPerson, halfFare, gst⟩
        passengers := (cnt : ℤ)
        status := .completed
        droppedAt := true
        shift := shift1 }
    avail := setAvail w.avail d .free }

/-- `PATCH /api/rides/:id/drop` — `dropRide`.  All in-memory edits commit
together at the single `ride.save()` on the success path. -/
def dropRide (w : World) (actor : Actor) (a : DropArgs) : World × Option ErrCode :=
  match w.ride.driver with
  | none => (w, some .thrown)
  | some d =>
    if actor.id ≠ d then (w, some .FORBIDDEN)
    else if w.ride.status ≠ .started then (w, some .INVALID_STATUS)
    else if ¬ w.ride.startedAt then (w, some .RIDE_NOT_STARTED)
    else
      match activeShiftFor w actor.id with
      | none => (w, some .NO_ACTIVE_SHIFT)
      | some sh =>
        let shift1 := if w.ride.shift = none then some sh.id else w.ride.shift
        if a.additionalClients ≠ [] then (w, some .NEW_CLIENTS_NOT_ALLOWED)
        else
          let from1 := match a.fromDest with
            | some f => if f ≠ w.ride.fromDest then some f else none
            | none => none
          if from1.any (fun f => ¬ w.destReg.contains f) then (w, some .INVALID_DESTINATION)
          else
            let to1 := match a.toDest with
              | some t => if t ≠ w.ride.toDest then some t else none
              | none => none
            if to1.any (fun t => ¬ w.destReg.contains t) then (w, some .INVALID_DESTINATION)
            else
              let wantsPassengers :=
                a.passengers.any fun p => p != 0 && p != w.ride.passengers
              if wantsPassengers ∧ a.passengers.getD 0 < 1 then (w, some .VALIDATION_ERROR)
              else
                if a.additionalClientIds ≠ [] ∧
                    ¬ (a.additionalClientIds.all w.clientsReg.contains) then
                  (w, some .INVALID_CLIENTS)
                else
                  let clients1 := w.ride.clients ++ a.additionalClientIds
                  match a.fareTotal with
                  | some q =>
                    if q < 0 then (w, some .VALIDATION_ERROR)
                    else (dropRideCommit w d shift1 from1 to1 clients1 q, none)
                  | none => (dropRideCommit w d shift1 from1 to1 clients1 w.ride.fare.total, none)

/-- The allowed driver cancellation reasons (`validReasons` in
`cancelOngoingRide`). -/
def validCancelReasons : List String :=
  ["vehicle_breakdown", "emergency", "traffic_jam", "client_no_show",
   "client_cancelled", "route_blocked", "personal_emergency", "other"]

/-- `PATCH /api/rides/:id/cancel` — `cancelOngoingRide`.  The reason is
validated before the ride is loaded; an empty string models a missing
reason (`!reason`). -/
def cancelOngoingRide (w : World) (actor : Actor) (reason : String) :
    World × Option ErrCode :=
  if reason = "" then (w, some .VALIDATION_ERROR)
  else if ¬ validCancelReasons.contains reason then (w, some .INVALID_REASON)
  else
    match w.ride.driver with
    | none => (w, some .thrown)
    | some d =>
      if actor.id ≠ d then (w, some .FORBIDDEN)
      else if w.ride.status ∉ [.assigned, .accepted, .started] then (w, some .INVALID_STATUS)
      else
        ({ w with
            ride := { w.ride with status := .cancelled, cancelledAt := true }
            avail := setAvail w.avail d .free }, none)

/-- The allowed manager abort reasons (`validReasons` in `abortRide`). -/
def validAbortReasons : List String :=
  ["client_request", "vehicle_unavailable", "driver_unavailable", "weather_conditions",
   "route_issues", "scheduling_conflict", "client_no_show", "other"]

/-- `PATCH /api/rides/:id/abort` — `abortRide`.  Only the literal role
`"manager"` passes the actor check; the driver is freed only when one is
assigned. -/
def abortRide (w : World) (actor : Actor) (reason : String) :
    World × Option ErrCode :=
  if reason = "" then (w, some .VALIDATION_ERROR)
  else if ¬ validAbortReasons.contains reason then (w, some .INVALID_REASON)
  else if actor.role ≠ Role.manager then (w, some .FORBIDDEN)
  else if w.ride.status ∉ [.assigned, .accepted] then (w, some .INVALID_STATUS)
  else
    let w1 := { w with ride := { w.ride with status := .aborted, abortedAt := true } }
    match w.ride.driver with
    | some d => ({ w1 with avail := setAvail w1.avail d .free }, none)
    | none => (w1, none)

/-- `PATCH /api/rides/:id/reassign` — `reassignRide`.  Note the order of
effects: the old driver is freed with an immediate
`User.findByIdAndUpdate` *before* `ensureDriverFree(newDriverId)` runs,
and the ride itself is saved only after that check passes. -/
def reassignRide (w : World) (newDriver : Option ℕ) : World × Option ErrCode :=
  match newDriver with
  | none => (w, some .VALIDATION_ERROR)
  | some nd =>
    if w.ride.status ≠ .assigned then (w, some .INVALID_TRANSITION)
    else
      match w.ride.driver with
      | none => (w, some .thrown)
      | some od =>
        let w1 := { w with avail := setAvail w.avail od .free }
        if w1.roleOf nd ≠ some Role.driver then (w1, some .INVALID_DRIVER)
        else if w1.avail nd ≠ .free then (w1, some .DRIVER_NOT_FREE)
        else
          ({ w1 with
              ride := { w1.ride with driver := some nd }
              avail := setAvail w1.avail nd .on_ride }, none)

/-- Request body of `completeQuickTripDetails`; `fareTotal = none` models
a missing/NaN fare. -/
structure QuickTripArgs where
  clientName : String
  pickupLocation : String
  dropoffLocation : String
  fareTotal : Option ℚ
  deriving DecidableEq, Repr

/-- The `ride.save()` of a successful quick-trip completion: one
driver-added client and two driver-generated destinations are created
(fresh ids), and the fare becomes
`{total, perPerson: total, halfFare: total/2, gst: calculateGST(total)}`. -/
def quickTripCommit (w : World) (q : ℚ) : World :=
  { w with
    ride :=
      { w.ride with
        clients := [w.nextId]
        fromDest := w.nextId + 1
        toDest := w.nextId + 2
        fare := ⟨q, q, q / 2, calculateGST q w.gstDivisor⟩
        status := .completed
        droppedAt := true }
    clientsReg := w.clientsReg ++ [w.nextId]
    destReg := w.destReg ++ [w.nextId + 1, w.nextId + 2]
    nextId := w.nextId + 3 }

/-- `PATCH /api/rides/:id/quick-trip-details` — `completeQuickTripDetails`.
On success a driver-added client and two driver-generated destinations
are created (fresh ids), the ride's fare becomes
`{total, perPerson: total, halfFare: total/2, gst: calculateGST(total)}`
(one client, so perPerson = total; halfFare is **not** rounded here), and
the ride completes.  When the ride has no populated driver, the final
`ride.driver._id` access throws *after* the save committed. -/
def completeQuickTripDetails (w : World) (actor : Actor) (a : QuickTripArgs) :
    World × Option ErrCode :=
  if ¬ w.ride.isQuickTrip then (w, some .NOT_QUICK_TRIP)
  else if actor.role = Role.driver ∧ w.ride.driver = none then (w, some .thrown)
  else if actor.role = Role.driver ∧ w.ride.driver ≠ some actor.id then (w, some .FORBIDDEN)
  else if w.ride.status ≠ .started then (w, some .INVALID_STATUS)
  else if ¬ w.ride.startedAt then (w, some .RIDE_NOT_STARTED)
  else if a.clientName = "" then (w, some .VALIDATION_ERROR)
  else if a.pickupLocation = "" then (w, some .VALIDATION_ERROR)
  else if a.dropoffLocation = "" then (w, some .VALIDATION_ERROR)
  else
    match a.fareTotal with
    | none => (w, some .VALIDATION_ERROR)
    | some q =>
      if q ≤ 0 then (w, some .VALIDATION_ERROR)
      else
        match w.ride.driver with
        | some d =>
          ({ quickTripCommit w q with
              avail := setAvail (quickTripCommit w q).avail d .free }, none)
        | none => (quickTripCommit w q, some .thrown)

/-- `createQuickTrip` looks its shift up with the filter
`{ driver: driverId, status: "active" }` and stores `activeShift?._id` as
the new ride's shift reference. -/
def createQuickTripShiftRef (shifts : List ShiftRec) (driverId : ℕ) : Option ℕ :=
  (shiftFindOne shifts [.driverEq driverId, .statusEq "active"]).map (·.id)

/-- Request body of `createSelfAssignedRide`. -/
structure SelfAssignArgs where
  clientName : String
  pickupLocation : String
  dropoffLocation : String
  fareTotal : Option ℚ
  passengers : Option ℤ
  deriving DecidableEq, Repr

/-- The ride produced by `createSelfAssignedRide` (fields relevant here). -/
structure SelfAssignedRide where
  shift : ℕ
  status : RideStatus
  fare : Fare
  passengers : ℤ
  acceptedAt : Bool
  deriving DecidableEq, Repr

/-- The field validations and ride construction of `createSelfAssignedRide`
after the active-shift guard passed with shift `sh`.  Fare breakdown:
`perPerson = (total/passengers).toFixed(2)`,
`halfFare = (perPerson/2).toFixed(2)`, `gst = calculateGST(total)`; the
ride starts at `accepted`. -/
def selfAssignValidate (sh : ShiftRec) (gstDivisor : ℚ) (a : SelfAssignArgs) :
    Except ErrCode SelfAssignedRide :=
  if a.clientName = "" then .error .VALIDATION_ERROR
  else if a.pickupLocation = "" then .error .VALIDATION_ERROR
  else if a.dropoffLocation = "" then .error .VALIDATION_ERROR
  else
    match a.fareTotal with
    | none => .error .VALIDATION_ERROR
    | some q =>
      if q ≤ 0 then .error .VALIDATION_ERROR
      else
        match a.passengers with
        | none => .error .VALIDATION_ERROR
        | some p =>
          if p < 1 then .error .VALIDATION_ERROR
          else
            let perPersonFare := toFixed2 (q / (p : ℚ))
            .ok
              { shift := sh.id
                status := .accepted
                fare := ⟨q, perPersonFare, toFixed2 (perPersonFare / 2),
                         calculateGST q gstDivisor⟩
                passengers := p
                acceptedAt := true }

/-- `POST /api/rides/self-assigned` — `createSelfAssignedRide`.  The
active-shift guard queries `Shift.findOne({ driver, status: "active" })`
and fails with `NO_ACTIVE_SHIFT` when that lookup returns nothing. -/
def createSelfAssignedRide (actor : Actor) (shifts : List ShiftRec)
    (gstDivisor : ℚ) (a : SelfAssignArgs) : Except ErrCode SelfAssignedRide :=
  if actor.role ≠ Role.driver then .error .FORBIDDEN
  else
    match shiftFindOne shifts [.driverEq actor.id, .statusEq "active"] with
    | none => .error .NO_ACTIVE_SHIFT
    | some sh => selfAssignValidate sh gstDivisor a

/-! ## Shift controller (src/controllers/shiftController.js) -/

/-- `POST /api/shifts/start` — `startShift`.  `taxiNumber` must be a
non-empty string and `startMeter` a non-negative number; an existing
active shift for the driver is a conflict and creates nothing.  The
store-level unique partial index `{driver, isActive}` backs the same
invariant. -/
def startShift (shifts : List ShiftRec) (nextId : ℕ) (driverId : ℕ)
    (taxiNumber : String) (startMeter : ℚ) (photoUrl : Option String) :
    (List ShiftRec × ℕ) × Option ErrCode :=
  if taxiNumber = "" then ((shifts, nextId), some .VALIDATION_ERROR)
  else if startMeter < 0 then ((shifts, nextId), some .VALIDATION_ERROR)
  else if (shiftFindOne shifts [.driverEq driverId, .isActiveEq true]).isSome then
    ((shifts, nextId), some .CONFLICT)
  else
    ((shifts ++ [{ id := nextId, driver := driverId, taxiNumber := taxiNumber,
                   startMeter := startMeter, startMeterPhoto := photoUrl.getD "pending",
                   isActive := true, endTimeSet := false }], nextId + 1), none)

/-- Update the first list element satisfying the predicate;
`none` when nothing matches (models `findOneAndUpdate`). -/
def updateFirst (p : ShiftRec → Bool) (f : ShiftRec → ShiftRec) :
    List ShiftRec → Option (List ShiftRec)
  | [] => none
  | s :: rest =>
    if p s then some (f s :: rest) else (updateFirst p f rest).map (s :: ·)

/-- `POST /api/shifts/:shiftId/end` — `endShift`:
`findOneAndUpdate({_id, driver, isActive: true}, {isActive: false, endTime})`. -/
def endShift (shifts : List ShiftRec) (shiftId driverId : ℕ) :
    List ShiftRec × Option ErrCode :=
  match updateFirst
      (fun s => s.id == shiftId && s.driver == driverId && s.isActive)
      (fun s => { s with isActive := false, endTimeSet := true }) shifts with
  | some shifts1 => (shifts1, none)
  | none => (shifts, some .NOT_FOUND)

/-- The §4.2 invariant: at most one active shift per driver. -/
def atMostOneActive (shifts : List ShiftRec) : Prop :=
  ∀ d, (shifts.filter fun s => s.driver == d && s.isActive).length ≤ 1

/-! ## Driver report model and submission
(src/models/DriverReport.js, src/controllers/driverReportController.js) -/

/-- Report `status` enum. -/
inductive ReportStatus
  | draft
  | submitted
  | approved
  | rejected
  | archived
  deriving DecidableEq, Repr

/-- A driver report document: the fields `canSubmit` and `submitReport`
read.  Photo URLs are `Option String`; the schema trims them, and JS
truthiness treats a missing or empty URL as absent. -/
structure DriverReport where
  status : ReportStatus
  shiftStartAmount : ℚ
  shiftStartPhoto : Option String
  shiftEndAmount : ℚ
  shiftEndPhoto : Option String
  liftings : ℚ
  cashFares : ℚ
  totalEFTPOSAmount : ℚ
  totalEFTPOSPhoto : Option String
  totalAccountTrips : ℚ
  cashExpensesAmount : ℚ
  cashExpensesPhoto : Option String
  totalTripsCount : ℤ
  calculations : Option Calculations
  submittedAtSet : Bool
  deriving DecidableEq, Repr

/-- JS truthiness of a photo URL (`!!url`). -/
def hasPhoto : Option String → Bool
  | some s => s ≠ ""
  | none => false

/-- Schema-level constraints a saved report satisfies
(src/models/DriverReport.js: `min: 0` on the amounts, end ≥ start,
integer non-negative trip count). -/
def reportSchemaValid (r : DriverReport) : Prop :=
  0 ≤ r.shiftStartAmount ∧ r.shiftStartAmount ≤ r.shiftEndAmount ∧
  0 ≤ r.liftings ∧ 0 ≤ r.cashFares ∧ 0 ≤ r.totalEFTPOSAmount ∧
  0 ≤ r.totalAccountTrips ∧ 0 ≤ r.cashExpensesAmount ∧ 0 ≤ r.totalTripsCount

/-- `driverReportSchema.methods.canSubmit`: draft status, end-meter photo
present, EFTPOS/expense photos present whenever their amounts are
positive, non-negative trip count. -/
def canSubmit (r : DriverReport) : Bool :=
  r.status == .draft &&
  hasPhoto r.shiftEndPhoto &&
  (!(r.totalEFTPOSAmount > 0) || hasPhoto r.totalEFTPOSPhoto) &&
  (!(r.cashExpensesAmount > 0) || hasPhoto r.cashExpensesPhoto) &&
  (r.totalTripsCount ≥ 0)

/-- The calculation-service view of a saved report (every amount present). -/
def toReportData (r : DriverReport) : ReportData :=
  { shiftStartTotal := some r.shiftStartAmount
    shiftEndTotal := some r.shiftEndAmount
    liftings := some r.liftings
    cashFares := some r.cashFares
    totalEFTPOS := some r.totalEFTPOSAmount
    totalAccountTrips := some r.totalAccountTrips
    cashExpenses := some r.cashExpensesAmount
    totalTripsCount := some r.totalTripsCount }

/-- `POST /api/driver-reports/:reportId/submit` — `submitReport`
(after `DriverReport.findOne` succeeded): draft check, `canSubmit`,
recomputation (`allowPartial` not passed), validation, then the report is
saved as submitted with the fresh calculations. -/
def submitReport (r : DriverReport) (s : CalcSettings) : Except ErrCode DriverReport :=
  if r.status ≠ .draft then .error .INVALID_STATUS
  else if ¬ canSubmit r then .error .REPORT_INCOMPLETE
  else
    match calculateReportTotals (toReportData r) s false with
    | .error _ => .error .thrown
    | .ok c =>
      if ¬ (validateCalculations c (some r.totalTripsCount)).isValid then
        .error .CALCULATION_ERROR
      else
        .ok { r with status := .submitted, calculations := some c, submittedAtSet := true }

/-! ## Derived forms used by the theorems -/

/-- Unrounded `shiftTotalFares = shiftEndTotal - shiftStartTotal`. -/
def rawShiftTotalFares (r : ReportData) : ℚ :=
  num r.shiftEndTotal - num r.shiftStartTotal

/-- Unrounded `totalFareAndLiftings = shiftTotalFares + liftings + cashFares`. -/
def rawTotalFareAndLiftings (r : ReportData) : ℚ :=
  rawShiftTotalFares r + num r.liftings + num r.cashFares

/-- Unrounded `rentals = totalFareAndLiftings * rentalRatePercentage / 100`. -/
def rawRentals (r : ReportData) (s : CalcSettings) : ℚ :=
  rawTotalFareAndLiftings r * s.rentalRatePercentage / 100

/-- Unrounded `subTotal = rentals - (totalEFTPOS + totalAccountTrips + cashExpenses)`. -/
def rawSubTotal (r : ReportData) (s : CalcSettings) : ℚ :=
  rawRentals r s - (num r.totalEFTPOS + num r.totalAccountTrips + num r.cashExpenses)

/-- Unrounded `tripLevy = totalTripsCount * tripLevyRate`. -/
def rawTripLevy (r : ReportData) (s : CalcSettings) : ℚ :=
  (int r.totalTripsCount : ℚ) * s.tripLevyRate

/-- The breakdown of raw inputs attached to every calculations object. -/
def rawBreakdown (r : ReportData) (diff : ℚ) : Breakdown :=
  { shiftStart := num r.shiftStartTotal
    shiftEnd := num r.shiftEndTotal
    shiftDifference := diff
    liftings := num r.liftings
    cashFares := num r.cashFares
    totalEFTPOS := num r.totalEFTPOS
    totalAccountTrips := num r.totalAccountTrips
    cashExpenses := num r.cashExpenses
    totalTripsCount := int r.totalTripsCount }

/-- The full (non-partial) calculations object, each field the rounded
value of its formula over the unrounded intermediates. -/
def fullCalcSpec (r : ReportData) (s : CalcSettings) : Calculations :=
  { shiftTotalFares := round2 (rawShiftTotalFares r)
    totalFareAndLiftings := round2 (rawTotalFareAndLiftings r)
    rentals := round2 (rawRentals r s)
    subTotal := round2 (rawSubTotal r s)
    tripLevy := round2 (rawTripLevy r s)
    driverNetPay := round2 (-(rawSubTotal r s + rawTripLevy r s))
    operatorEarnings := round2 (rawTotalFareAndLiftings r - rawRentals r s)
    rentalRateUsed := s.rentalRatePercentage
    partFlag := false
    breakdown := rawBreakdown r (rawShiftTotalFares r) }

/-- The transition table of spec §4.1, as edges between statuses. -/
def tableEdge : RideStatus → RideStatus → Bool
  | .scheduled, .assigned => true
  | .assigned, .accepted => true
  | .assigned, .rejected => true
  | .assigned, .cancelled => true
  | .accepted, .cancelled => true
  | .started, .cancelled => true
  | .assigned, .aborted => true
  | .accepted, .aborted => true
  | .accepted, .started => true
  | .started, .completed => true
  | _, _ => false

/-- The submission conditions as the spec words them (end-meter photo
present, EFTPOS/expense photos present whenever their amounts are
positive, non-negative trip count). -/
def submitPhotoConds (r : DriverReport) : Prop :=
  hasPhoto r.shiftEndPhoto = true ∧
  (0 < r.totalEFTPOSAmount → hasPhoto r.totalEFTPOSPhoto = true) ∧
  (0 < r.cashExpensesAmount → hasPhoto r.cashExpensesPhoto = true) ∧
  0 ≤ r.totalTripsCount

/-! ## Concrete example data -/

/-- Spec §8 worked scenario: start 100, end 250, liftings 20, cash fares
30, EFTPOS 0, account trips 0, expenses 0, 10 trips. -/
def scenarioInput : ReportData :=
  ⟨some 100, some 250, some 20, some 30, some 0, some 0, some 0, some 10⟩

/-- Input with `shiftEndTotal - shiftStartTotal = 0.006`: all other
amounts 0. -/
def tinyFareInput : ReportData :=
  ⟨some 0, some (6 / 1000), some 0, some 0, some 0, some 0, some 0, some 0⟩

/-- A draft mid-edit whose end-of-shift meter total is not yet known:
start 100, no `shiftEndTotal`. -/
def openDraftInput : ReportData :=
  ⟨some 100, none, none, none, none, none, none, none⟩

/-- Input with `liftings = -0.014` (a mid-edit value; the schema's
`min: 0` is only enforced at save, after the recalculation runs). -/
def negLiftingsInput : ReportData :=
  ⟨some 0, some 0, some (-(14 / 1000)), some 0, some 0, some 0, some 0, some 0⟩

/-- Input whose end total 50 is below its start total 100. -/
def invalidMeterInput : ReportData :=
  ⟨some 100, some 50, some 0, some 0, some 0, some 0, some 0, some 0⟩

/-- A ride assigned to driver 1, fare still zeroed. -/
def assignedRide : Ride :=
  { isQuickTrip := false, isSelfAssigned := false, clients := [10], fromDest := 20,
    toDest := 21, passengers := 1, fare := ⟨0, 0, 0, 0⟩, driver := some 1,
    status := .assigned, acceptedAt := false, startedAt := false, droppedAt := false,
    cancelledAt := false, rejectedAt := false, abortedAt := false, shift := none }

/-- A world with one assigned ride for driver 1 and an empty shift store. -/
def noShiftWorld : World :=
  { ride := assignedRide, avail := fun _ => .on_ride, roleOf := fun _ => some .driver,
    shifts := [], clientsReg := [10], destReg := [20, 21], gstDivisor := 11, nextId := 100 }

/-- A world whose ride is already completed (driver 1). -/
def completedWorld : World :=
  { noShiftWorld with
    ride :=
      { assignedRide with
        status := .completed
        acceptedAt := true
        startedAt := true
        droppedAt := true } }

/-- A world with a started ride for driver 1, four clients, and an active
shift, ready to be dropped. -/
def startedWorld : World :=
  { ride :=
      { assignedRide with
        clients := [10, 11, 12, 13]
        passengers := 4
        status := .started
        acceptedAt := true
        startedAt := true
        shift := some 50 }
    avail := fun _ => .on_ride
    roleOf := fun _ => some .driver
    shifts := [{ id := 50, driver := 1, taxiNumber := "T1", startMeter := 0,
                 startMeterPhoto := "p", isActive := true, endTimeSet := false }]
    clientsReg := [10, 11, 12, 13]
    destReg := [20, 21]
    gstDivisor := 11
    nextId := 100 }

/-- A started quick trip for driver 1 (clients and destinations still to
be captured at completion). -/
def quickTripWorld : World :=
  { startedWorld with
    ride := { startedWorld.ride with isQuickTrip := true, clients := [], passengers := 1 } }

/-- Drivers 1 and 2 both on rides; the ride is assigned to driver 1. -/
def bothBusyWorld : World :=
  { noShiftWorld with
    avail := fun n => if n = 1 ∨ n = 2 then .on_ride else .free }

/-- Empty-body drop request (no fare update, no client/destination edits). -/
def plainDropArgs : DropArgs := ⟨none, none, none, none, [], []⟩

/-- Drop request that sets the final fare total to 100. -/
def dropArgs100 : DropArgs := ⟨some 100, none, none, none, [], []⟩

/-- Quick-trip completion details with fare total 0.05. -/
def qtArgsTiny : QuickTripArgs := ⟨"Bob", "Airport", "Hotel", some (1 / 20)⟩

/-- The shift that `startShift` creates for driver 7 on an empty store. -/
def shift7 : ShiftRec :=
  { id := 0, driver := 7, taxiNumber := "T7", startMeter := 0,
    startMeterPhoto := "pending", isActive := true, endTimeSet := false }

/-- A well-formed self-assigned-ride request. -/
def selfAssignArgsEx : SelfAssignArgs :=
  ⟨"Alice", "Airport", "Hotel", some 100, some 2⟩

/-- A draft report with EFTPOS amount 50 and no EFTPOS photo (spec §8
scenario); the end-meter photo is present. -/
def eftposDraft : DriverReport :=
  { status := .draft, shiftStartAmount := 100, shiftStartPhoto := some "s",
    shiftEndAmount := 250, shiftEndPhoto := some "e", liftings := 0, cashFares := 0,
    totalEFTPOSAmount := 50, totalEFTPOSPhoto := none, totalAccountTrips := 0,
    cashExpensesAmount := 0, cashExpensesPhoto := none, totalTripsCount := 10,
    calculations := none, submittedAtSet := false }

/-! ## Shared lemmas -/

theorem canCalculateTotals_iff (r : ReportData) :
    canCalculateTotals r = true ↔ num r.shiftStartTotal ≤ num r.shiftEndTotal := by
  simp [canCalculateTotals, ge_iff_le]

theorem calculateReportTotals_ok (r : ReportData) (s : CalcSettings) (ap : Bool)
    (h : canCalculateTotals r = true) :
    calculateReportTotals r s ap = .ok (fullCalcSpec r s) := by
  simp [calculateReportTotals, h, fullCalcSpec, rawShiftTotalFares,
    rawTotalFareAndLiftings, rawRentals, rawSubTotal, rawTripLevy, rawBreakdown]

/-! ## C1 — reconciliation formulas, rounding, and the worked scenario -/

/-- C1 (corrected): for every valid non-partial input the service returns
each field as its §4.3 formula evaluated over the *unrounded*
intermediates and then rounded with `round2` (`Math.round` half-up with
the epsilon nudge) — in particular `driverNetPay` is
`round2 (-(subTotal_raw + tripLevy_raw))` and `operatorEarnings` is
`round2 (totalFareAndLiftings_raw - rentals_raw)`, so those equations
hold exactly over the pre-rounding values rather than over the returned
rounded fields — and the worked scenario returns exactly 150, 200, 90,
90, 13.20, -103.20, 110. -/
theorem C1_theorem :
    (∀ (r : ReportData) (s : CalcSettings),
        num r.shiftStartTotal ≤ num r.shiftEndTotal →
        calculateReportTotals r s false = .ok (fullCalcSpec r s)) ∧
    calculateReportTotals scenarioInput DEFAULT_SETTINGS false =
      .ok
        { shiftTotalFares := 150
          totalFareAndLiftings := 200
          rentals := 90
          subTotal := 90
          tripLevy := 66 / 5
          driverNetPay := -(516 / 5)
          operatorEarnings := 110
          rentalRateUsed := 45
          partFlag := false
          breakdown := ⟨100, 250, 150, 20, 30, 0, 0, 0, 10⟩ } := by
  constructor
  · intro r s h
    exact calculateReportTotals_ok r s false ((canCalculateTotals_iff r).mpr h)
  · norm_num [calculateReportTotals, canCalculateTotals, num, int, round2,
      jsEpsilon, DEFAULT_SETTINGS, scenarioInput]

theorem C1_witness :
    num scenarioInput.shiftStartTotal ≤ num scenarioInput.shiftEndTotal ∧
    calculateReportTotals scenarioInput DEFAULT_SETTINGS false =
      .ok (fullCalcSpec scenarioInput DEFAULT_SETTINGS) :=
  ⟨by norm_num [scenarioInput, num],
   C1_theorem.1 scenarioInput DEFAULT_SETTINGS (by norm_num [scenarioInput, num])⟩

/-- C1 fails as stated: with start 0 and end 0.006 the returned fields are
`totalFareAndLiftings = 0.01`, `rentals = 0`, `operatorEarnings = 0`, and
`0 ≠ 0.01 - 0`, so `operatorEarnings = totalFareAndLiftings - rentals`
does not hold over the returned (rounded) fields. -/
theorem C1_counterexample :
    calculateReportTotals tinyFareInput DEFAULT_SETTINGS false =
      .ok
        { shiftTotalFares := 1 / 100
          totalFareAndLiftings := 1 / 100
          rentals := 0
          subTotal := 0
          tripLevy := 0
          driverNetPay := 0
          operatorEarnings := 0
          rentalRateUsed := 45
          partFlag := false
          breakdown := ⟨0, 6 / 1000, 6 / 1000, 0, 0, 0, 0, 0, 0⟩ } ∧
    (0 : ℚ) ≠ 1 / 100 - 0 := by
  constructor
  · norm_num [calculateReportTotals, canCalculateTotals, num, int, round2,
      jsEpsilon, DEFAULT_SETTINGS, tinyFareInput]
  · norm_num

/-! ## C2 — partial mode for drafts with an unknown end total -/

/-- C2 (corrected): when invoked with `allowPartial: true`, the service
returns the all-zero calculations object tagged `partial: true` (raw
inputs echoed in the breakdown) whenever the inputs are insufficient —
which is what an unknown `shiftEndTotal` with a positive start coerces
to — and does not throw.  But the calculation path invoked while editing
a draft (`updateDriverReport`) does not pass `allowPartial`, so there an
unknown `shiftEndTotal` makes the calculation throw (the end total
coerces to 0 < start), surfacing an error instead of a partial result. -/
theorem C2_theorem :
    (∀ (r : ReportData) (s : CalcSettings),
        canCalculateTotals r = false →
        calculateReportTotals r s true = .ok (zeroCalcs s (rawBreakdown r 0)) ∧
        (zeroCalcs s (rawBreakdown r 0)).partFlag = true ∧
        (zeroCalcs s (rawBreakdown r 0)).shiftTotalFares = 0 ∧
        (zeroCalcs s (rawBreakdown r 0)).totalFareAndLiftings = 0 ∧
        (zeroCalcs s (rawBreakdown r 0)).rentals = 0 ∧
        (zeroCalcs s (rawBreakdown r 0)).subTotal = 0 ∧
        (zeroCalcs s (rawBreakdown r 0)).tripLevy = 0 ∧
        (zeroCalcs s (rawBreakdown r 0)).driverNetPay = 0 ∧
        (zeroCalcs s (rawBreakdown r 0)).operatorEarnings = 0) ∧
    (∀ (r : ReportData) (s : CalcSettings),
        num r.shiftEndTotal < num r.shiftStartTotal →
        updateDraftRecalc r s =
          .error "Failed to calculate report totals: Shift end total cannot be less than shift start total") := by
  constructor
  · intro r s h
    refine ⟨?_, rfl, rfl, rfl, rfl, rfl, rfl, rfl, rfl⟩
    simp [calculateReportTotals, h, zeroCalcs, rawBreakdown]
  · intro r s h
    have hc : canCalculateTotals r = false := by
      simp [canCalculateTotals, decide_eq_false_iff_not]
      exact h
    simp [updateDraftRecalc, calculateReportTotals, hc, h]

theorem C2_witness :
    canCalculateTotals openDraftInput = false ∧
    (calculateReportTotals openDraftInput DEFAULT_SETTINGS true =
        .ok (zeroCalcs DEFAULT_SETTINGS (rawBreakdown openDraftInput 0)) ∧
      (zeroCalcs DEFAULT_SETTINGS (rawBreakdown openDraftInput 0)).partFlag = true ∧
      (zeroCalcs DEFAULT_SETTINGS (rawBreakdown openDraftInput 0)).shiftTotalFares = 0 ∧
      (zeroCalcs DEFAULT_SETTINGS (rawBreakdown openDraftInput 0)).totalFareAndLiftings = 0 ∧
      (zeroCalcs DEFAULT_SETTINGS (rawBreakdown openDraftInput 0)).rentals = 0 ∧
      (zeroCalcs DEFAULT_SETTINGS (rawBreakdown openDraftInput 0)).subTotal = 0 ∧
      (zeroCalcs DEFAULT_SETTINGS (rawBreakdown openDraftInput 0)).tripLevy = 0 ∧
      (zeroCalcs DEFAULT_SETTINGS (rawBreakdown openDraftInput 0)).driverNetPay = 0 ∧
      (zeroCalcs DEFAULT_SETTINGS (rawBreakdown openDraftInput 0)).operatorEarnings = 0) :=
  ⟨by norm_num [canCalculateTotals, openDraftInput, num],
   C2_theorem.1 openDraftInput DEFAULT_SETTINGS
     (by norm_num [canCalculateTotals, openDraftInput, num])⟩

/-- C2 fails as stated on the draft-editing path: updating a draft whose
`shiftEndTotal` is not yet known (start 100, end absent) makes the
recalculation throw — the coerced end 0 is below the start — instead of
returning an all-zero `partial: true` object. -/
theorem C2_counterexample :
    updateDraftRecalc openDraftInput DEFAULT_SETTINGS =
      .error "Failed to calculate report totals: Shift end total cannot be less than shift start total" := by
  norm_num [updateDraftRecalc, calculateReportTotals, canCalculateTotals,
    num, openDraftInput]

/-! ## C8 — validation rejections -/

theorem validateCalculations_isValid_iff (c : Calculations) (t : Option ℤ) :
    (validateCalculations c t).isValid = true ↔
      0 ≤ c.shiftTotalFares ∧ 0 ≤ c.totalFareAndLiftings ∧
        c.rentals ≤ c.totalFareAndLiftings ∧ 0 ≤ t.getD 0 := by
  simp only [validateCalculations, List.isEmpty_iff, List.append_eq_nil,
    ite_eq_right_iff, reduceCtorEq, imp_false, not_lt]
  tauto

/-- C8 (corrected): outside partial mode the calculation rejects (throws)
whenever `shiftEndTotal < shiftStartTotal`; `validateCalculations`, which
compares the *returned rounded* fields, accepts exactly when the rounded
`shiftTotalFares` and `totalFareAndLiftings` are non-negative, the
rounded `rentals` do not exceed the rounded `totalFareAndLiftings`, and
the trip count is non-negative — so beyond the claim's three conditions
it also rejects a negative `totalFareAndLiftings` (or `shiftTotalFares`). -/
theorem C8_theorem :
    (∀ (r : ReportData) (s : CalcSettings),
        num r.shiftEndTotal < num r.shiftStartTotal →
        calculateReportTotals r s false =
          .error "Failed to calculate report totals: Shift end total cannot be less than shift start total") ∧
    (∀ (c : Calculations) (t : Option ℤ),
        (validateCalculations c t).isValid = true ↔
          0 ≤ c.shiftTotalFares ∧ 0 ≤ c.totalFareAndLiftings ∧
            c.rentals ≤ c.totalFareAndLiftings ∧ 0 ≤ t.getD 0) := by
  constructor
  · intro r s h
    have hc : canCalculateTotals r = false := by
      simp [canCalculateTotals, decide_eq_false_iff_not]
      exact h
    simp [calculateReportTotals, hc, h]
  · exact validateCalculations_isValid_iff

theorem C8_witness :
    num invalidMeterInput.shiftEndTotal < num invalidMeterInput.shiftStartTotal ∧
    calculateReportTotals invalidMeterInput DEFAULT_SETTINGS false =
      .error "Failed to calculate report totals: Shift end total cannot be less than shift start total" :=
  ⟨by norm_num [invalidMeterInput, num],
   C8_theorem.1 invalidMeterInput DEFAULT_SETTINGS
     (by norm_num [invalidMeterInput, num])⟩

/-- C8 fails as stated: with start = end = 0 and liftings = -0.014 none
of the claim's three rejection conditions holds over the returned fields
(end ≥ start, rounded rentals -0.01 do not exceed rounded
totalFareAndLiftings -0.01, trip count 0), yet validation rejects the
report because the rounded `totalFareAndLiftings` is negative. -/
theorem C8_counterexample :
    calculateReportTotals negLiftingsInput DEFAULT_SETTINGS false =
      .ok
        { shiftTotalFares := 0
          totalFareAndLiftings := -(1 / 100)
          rentals := -(1 / 100)
          subTotal := -(1 / 100)
          tripLevy := 0
          driverNetPay := 1 / 100
          operatorEarnings := -(1 / 100)
          rentalRateUsed := 45
          partFlag := false
          breakdown := ⟨0, 0, 0, -(7 / 500), 0, 0, 0, 0, 0⟩ } ∧
    ¬ (-(1 / 100) : ℚ) > -(1 / 100) ∧
    num negLiftingsInput.shiftStartTotal ≤ num negLiftingsInput.shiftEndTotal ∧
    (0 : ℤ) ≤ (some (0 : ℤ)).getD 0 ∧
    (validateCalculations
        { shiftTotalFares := 0
          totalFareAndLiftings := -(1 / 100)
          rentals := -(1 / 100)
          subTotal := -(1 / 100)
          tripLevy := 0
          driverNetPay := 1 / 100
          operatorEarnings := -(1 / 100)
          rentalRateUsed := 45
          partFlag := false
          breakdown := ⟨0, 0, 0, -(7 / 500), 0, 0, 0, 0, 0⟩ }
        (some 0)).isValid = false := by
  refine ⟨?_, by norm_num, by norm_num [negLiftingsInput, num], by norm_num, ?_⟩
  · norm_num [calculateReportTotals, canCalculateTotals, num, int, round2,
      jsEpsilon, DEFAULT_SETTINGS, negLiftingsInput]
  · norm_num [validateCalculations]

/-! ## C7 — report submission gate -/

theorem canSubmit_eq_true_iff (r : DriverReport) (hd : r.status = .draft) :
    canSubmit r = true ↔ submitPhotoConds r := by
  by_cases he : 0 < r.totalEFTPOSAmount <;> by_cases hx : 0 < r.cashExpensesAmount <;>
    simp [canSubmit, hd, submitPhotoConds, he, hx] <;> tauto

/-- C7 (confirmed): a draft report passes the incomplete-report gate iff
the end-meter photo is present, the EFTPOS photo is present whenever its
amount is positive, the expense photo is present whenever its amount is
positive, and the trip count is non-negative; a draft failing those
conditions is rejected with `REPORT_INCOMPLETE`; when they hold,
submission recomputes the calculations and either rejects with
`CALCULATION_ERROR` on a validation failure or saves the report as
submitted with the fresh calculations. -/
theorem C7_theorem :
    ∀ (r : DriverReport) (s : CalcSettings),
      r.status = .draft →
      reportSchemaValid r →
      ((submitReport r s = .error .REPORT_INCOMPLETE) ↔ ¬ submitPhotoConds r) ∧
      (submitPhotoConds r →
        calculateReportTotals (toReportData r) s false =
          .ok (fullCalcSpec (toReportData r) s) ∧
        ((validateCalculations (fullCalcSpec (toReportData r) s)
              (some r.totalTripsCount)).isValid = true →
          submitReport r s =
            .ok { r with
                  status := .submitted
                  calculations := some (fullCalcSpec (toReportData r) s)
                  submittedAtSet := true }) ∧
        ((validateCalculations (fullCalcSpec (toReportData r) s)
              (some r.totalTripsCount)).isValid = false →
          submitReport r s = .error .CALCULATION_ERROR)) := by
  intro r s hd hv
  have hcs := canSubmit_eq_true_iff r hd
  have hcalc : calculateReportTotals (toReportData r) s false =
      .ok (fullCalcSpec (toReportData r) s) := by
    apply calculateReportTotals_ok
    rw [canCalculateTotals_iff]
    simpa [toReportData, num] using hv.2.1
  constructor
  · constructor
    · intro h hcond
      have hc : canSubmit r = true := hcs.mpr hcond
      simp only [submitReport, hd, hc] at h
      rw [hcalc] at h
      rcases Bool.eq_false_or_eq_true
          (validateCalculations (fullCalcSpec (toReportData r) s)
            (some r.totalTripsCount)).isValid with hvb | hvb <;>
        simp [hvb] at h
    · intro hnc
      have hc : canSubmit r = false := by
        rcases Bool.eq_false_or_eq_true (canSubmit r) with hct | hcf
        · exact absurd (hcs.mp hct) hnc
        · exact hcf
      simp [submitReport, hd, hc]
  · intro hcond
    have hc : canSubmit r = true := hcs.mpr hcond
    refine ⟨hcalc, ?_, ?_⟩ <;> intro hval <;>
      simp [submitReport, hd, hc, hcalc, hval]

theorem C7_witness :
    eftposDraft.status = .draft ∧
    reportSchemaValid eftposDraft ∧
    ((submitReport eftposDraft DEFAULT_SETTINGS = .error .REPORT_INCOMPLETE) ↔
      ¬ submitPhotoConds eftposDraft) ∧
    submitReport eftposDraft DEFAULT_SETTINGS = .error .REPORT_INCOMPLETE :=
  ⟨rfl,
   by norm_num [reportSchemaValid, eftposDraft],
   (C7_theorem eftposDraft DEFAULT_SETTINGS rfl
      (by norm_num [reportSchemaValid, eftposDraft])).1,
   (C7_theorem eftposDraft DEFAULT_SETTINGS rfl
      (by norm_num [reportSchemaValid, eftposDraft])).1.mpr
     (by norm_num [submitPhotoConds, eftposDraft, hasPhoto])⟩

/-! ## C6 — at most one active shift per driver -/

theorem shiftFindOne_active (l : List ShiftRec) (d : ℕ) :
    shiftFindOne l [.driverEq d, .isActiveEq true] =
      l.find? (fun s => s.driver == d && s.isActive) := by
  unfold shiftFindOne
  congr 1
  funext s
  simp [matchesCond, condField, shiftSchemaFields]

theorem updateFirst_filter_length_le (p : ShiftRec → Bool) (f : ShiftRec → ShiftRec)
    (q : ShiftRec → Bool) (hf : ∀ s, q (f s) = false) :
    ∀ (l l' : List ShiftRec), updateFirst p f l = some l' →
      (l'.filter q).length ≤ (l.filter q).length := by
  intro l
  induction l with
  | nil => intro l' h; simp [updateFirst] at h
  | cons s rest ih =>
    intro l' h
    simp only [updateFirst] at h
    split at h
    · cases h
      rw [List.filter_cons, List.filter_cons, hf s]
      by_cases hq : q s = true
      · simp only [hq, if_true, if_false, Bool.false_eq_true, List.length_cons]
        exact Nat.le_succ _
      · simp [hq]
    · cases hr : updateFirst p f rest with
      | none => rw [hr] at h; simp at h
      | some rest' =>
        rw [hr] at h
        simp only [Option.map_some', Option.some.injEq] at h
        subst h
        have := ih rest' hr
        simp only [List.filter_cons]
        split <;> simpa using this

/-- C6 (confirmed): with well-formed inputs, starting a shift while one
is already active for the driver fails with a conflict and leaves the
store unchanged; both `startShift` and `endShift` preserve the at most
one active shift per driver invariant (the store additionally backs it
with the unique partial index on `{driver, isActive}`). -/
theorem C6_theorem :
    (∀ (shifts : List ShiftRec) (nid d : ℕ) (tn : String) (m : ℚ) (ph : Option String),
        tn ≠ "" → 0 ≤ m →
        (shiftFindOne shifts [.driverEq d, .isActiveEq true]).isSome →
        startShift shifts nid d tn m ph = ((shifts, nid), some .CONFLICT)) ∧
    (∀ (shifts : List ShiftRec) (nid d : ℕ) (tn : String) (m : ℚ) (ph : Option String),
        atMostOneActive shifts →
        atMostOneActive (startShift shifts nid d tn m ph).1.1) ∧
    (∀ (shifts : List ShiftRec) (sid did : ℕ),
        atMostOneActive shifts →
        atMostOneActive (endShift shifts sid did).1) := by
  refine ⟨?_, ?_, ?_⟩
  · intro shifts nid d tn m ph htn hm hact
    rw [startShift, if_neg htn, if_neg (by simpa using hm), if_pos hact]
  · intro shifts nid d tn m ph hinv
    unfold startShift
    split
    · exact hinv
    · split
      · exact hinv
      · split
        · exact hinv
        · rename_i htn hm hnone
          intro d'
          rw [List.filter_append]
          by_cases hdd : d' = d
          · subst hdd
            have hnone' : shifts.find? (fun s => s.driver == d' && s.isActive) = none := by
              rw [← shiftFindOne_active]
              exact Option.not_isSome_iff_eq_none.mp hnone
            have hnil : shifts.filter (fun s => s.driver == d' && s.isActive) = [] := by
              rw [List.filter_eq_nil_iff]
              intro a ha
              exact List.find?_eq_none.mp hnone' a ha
            simp [hnil, List.filter]
          · have hnew : (d == d') = false := by
              simpa using Ne.symm hdd
            simp only [List.filter_cons, List.filter_nil, hnew, Bool.false_and,
              Bool.false_eq_true, if_false, List.append_nil]
            exact hinv d'
  · intro shifts sid did hinv
    unfold endShift
    cases hu : updateFirst (fun s => s.id == sid && s.driver == did && s.isActive)
        (fun s => { s with isActive := false, endTimeSet := true }) shifts with
    | none => simpa [hu] using hinv
    | some shifts1 =>
      simp only [hu]
      intro d'
      exact le_trans
        (updateFirst_filter_length_le _ _ (fun s => s.driver == d' && s.isActive)
          (by intro s; simp) shifts shifts1 hu)
        (hinv d')

theorem C6_witness :
    ("T7" : String) ≠ "" ∧ (0 : ℚ) ≤ 0 ∧
    (shiftFindOne [shift7] [.driverEq 7, .isActiveEq true]).isSome = true ∧
    startShift [shift7] 1 7 "T7" 0 none = (([shift7], 1), some .CONFLICT) ∧
    atMostOneActive ((startShift [shift7] 1 7 "T7" 0 none).1.1) :=
  ⟨by simp,
   le_refl 0,
   by simp [shiftFindOne, shift7, matchesCond, condField, shiftSchemaFields],
   C6_theorem.1 [shift7] 1 7 "T7" 0 none (by simp) (le_refl 0)
     (by simp [shiftFindOne, shift7, matchesCond, condField, shiftSchemaFields]),
   C6_theorem.2.1 [shift7] 1 7 "T7" 0 none
     (by
      intro d
      by_cases h : d = 7
      · subst h
        simp [shift7, List.filter]
      · have h7 : ((7 : ℕ) == d) = false := by simpa using Ne.symm h
        simp [shift7, List.filter, h7])⟩

/-! ## C10 — the status:"active" shift lookups -/

theorem shiftFindOne_status_stripped (l : List ShiftRec) (d : ℕ) :
    shiftFindOne l [.driverEq d, .statusEq "active"] =
      l.find? (fun s => s.driver == d) := by
  unfold shiftFindOne
  congr 1
  funext s
  simp [matchesCond, condField, shiftSchemaFields]

theorem selfAssignValidate_ne_noShift (sh : ShiftRec) (g : ℚ) (a : SelfAssignArgs) :
    selfAssignValidate sh g a ≠ .error .NO_ACTIVE_SHIFT := by
  unfold selfAssignValidate
  split_ifs <;> try simp
  cases a.fareTotal with
  | none => simp
  | some q =>
    simp only []
    split_ifs <;> try simp
    cases a.passengers with
    | none => simp
    | some p =>
      simp only []
      split_ifs <;> simp

/-- C10 (corrected): because the app sets `mongoose strictQuery = true`,
the unknown `status` key is stripped from the
`{ driver, status: "active" }` filter, so the lookup matches *any* shift
of the driver regardless of `isActive`: self-assigned ride creation
fails with `NO_ACTIVE_SHIFT` exactly when the driver has no shift
documents at all (not whenever the active shift is unmatched), and a
quick trip's shift reference is the first stored shift of the driver,
active or not. -/
theorem C10_theorem :
    (∀ (l : List ShiftRec) (d : ℕ),
        shiftFindOne l [.driverEq d, .statusEq "active"] =
          l.find? (fun s => s.driver == d)) ∧
    (∀ (actor : Actor) (shifts : List ShiftRec) (g : ℚ) (a : SelfAssignArgs),
        actor.role = .driver →
        (createSelfAssignedRide actor shifts g a = .error .NO_ACTIVE_SHIFT ↔
          shifts.find? (fun s => s.driver == actor.id) = none)) ∧
    (∀ (shifts : List ShiftRec) (d : ℕ),
        createQuickTripShiftRef shifts d =
          (shifts.find? (fun s => s.driver == d)).map (·.id)) := by
  refine ⟨shiftFindOne_status_stripped, ?_, ?_⟩
  · intro actor shifts g a hrole
    unfold createSelfAssignedRide
    rw [if_neg (by simp [hrole])]
    rw [shiftFindOne_status_stripped]
    cases h : shifts.find? (fun s => s.driver == actor.id) with
    | none => simp
    | some sh => simp [selfAssignValidate_ne_noShift]
  · intro shifts d
    unfold createQuickTripShiftRef
    rw [shiftFindOne_status_stripped]

theorem C10_witness :
    (⟨7, Role.driver⟩ : Actor).role = Role.driver ∧
    (createSelfAssignedRide ⟨7, .driver⟩ [shift7] 11 selfAssignArgsEx =
        .error .NO_ACTIVE_SHIFT ↔
      ([shift7].find? (fun s => s.driver == 7)) = none) :=
  ⟨rfl, C10_theorem.2.1 ⟨7, .driver⟩ [shift7] 11 selfAssignArgsEx rfl⟩

/-- C10 fails as stated: after `startShift` creates an active shift for
driver 7 (with `isActive: true`), the `{driver, status:"active"}` lookup
*does* match it, `createSelfAssignedRide` does not fail with
`NO_ACTIVE_SHIFT`, and a quick trip for driver 7 gets shift reference 0
rather than none. -/
theorem C10_counterexample :
    startShift [] 0 7 "T7" 0 none = (([shift7], 1), none) ∧
    shift7.isActive = true ∧
    shiftFindOne [shift7] [.driverEq 7, .statusEq "active"] = some shift7 ∧
    createSelfAssignedRide ⟨7, .driver⟩ [shift7] 11 selfAssignArgsEx ≠
      .error .NO_ACTIVE_SHIFT ∧
    createQuickTripShiftRef [shift7] 7 = some 0 := by
  refine ⟨?_, rfl, ?_, ?_, ?_⟩
  · simp [startShift, shiftFindOne, shift7]
  · simp [shiftFindOne, shift7, matchesCond, condField, shiftSchemaFields]
  · unfold createSelfAssignedRide
    rw [if_neg (by simp)]
    rw [shiftFindOne_status_stripped]
    have hf : ([shift7].find? (fun s => s.driver == 7)) = some shift7 := by
      simp [List.find?, shift7]
    rw [hf]
    exact selfAssignValidate_ne_noShift shift7 11 selfAssignArgsEx
  · simp [createQuickTripShiftRef, shiftFindOne, shift7, matchesCond, condField,
      shiftSchemaFields]

/-! ## C5 — the accept guard -/

/-- C5 (corrected): the dedicated accept endpoint enforces the guard —
only the assigned driver may accept, an active shift must exist, and on
success `acceptedAt` is set, the ride is linked to the active shift and
the driver marked on_ride; without an active shift it fails with
`NO_ACTIVE_SHIFT` and the ride stays assigned.  The generic
status-update endpoint, however, accepts an assigned ride for an
authorized actor with **no** active-shift check and links no shift. -/
theorem C5_theorem :
    (∀ (w : World) (actor : Actor),
        w.ride.driver = some actor.id →
        w.ride.status = .assigned →
        activeShiftFor w actor.id = none →
        acceptRide w actor = (w, some .NO_ACTIVE_SHIFT)) ∧
    (∀ (w : World) (actor : Actor) (sh : ShiftRec),
        w.ride.driver = some actor.id →
        w.ride.status = .assigned →
        activeShiftFor w actor.id = some sh →
        acceptRide w actor =
          ({ w with
              ride :=
                { w.ride with status := .accepted, acceptedAt := true, shift := some sh.id }
              avail := setAvail w.avail actor.id .on_ride }, none)) ∧
    (∀ (w : World) (actor : Actor) (d : ℕ),
        w.ride.driver = some d → actor.id ≠ d →
        acceptRide w actor = (w, some .FORBIDDEN)) ∧
    (∀ (w : World) (actor : Actor),
        w.ride.driver = some actor.id →
        w.ride.status = .assigned →
        updateRideStatus w actor "accepted" =
          ({ w with ride := { w.ride with status := .accepted, acceptedAt := true } },
           none)) := by
  refine ⟨?_, ?_, ?_, ?_⟩
  · intro w actor hd hst hsh
    simp [acceptRide, hd, hst, hsh]
  · intro w actor sh hd hst hsh
    simp [acceptRide, hd, hst, hsh]
  · intro w actor d hd hne
    simp [acceptRide, hd, hne]
  · intro w actor hd hst
    cases hrole : actor.role <;>
      simp [updateRideStatus, hd, hst, hrole]

theorem C5_witness :
    noShiftWorld.ride.driver = some 1 ∧
    noShiftWorld.ride.status = .assigned ∧
    activeShiftFor noShiftWorld 1 = none ∧
    acceptRide noShiftWorld ⟨1, .driver⟩ = (noShiftWorld, some .NO_ACTIVE_SHIFT) :=
  ⟨rfl, rfl,
   by simp [activeShiftFor, shiftFindOne, noShiftWorld],
   C5_theorem.1 noShiftWorld ⟨1, .driver⟩ rfl rfl
     (by simp [activeShiftFor, shiftFindOne, noShiftWorld])⟩

/-- C5 fails as stated: with an assigned ride for driver 1 and an empty
shift store (no active shift), the generic status-update endpoint still
accepts the ride for the driver — the ride ends up accepted with no
shift linked, instead of the accept failing and the ride staying
assigned. -/
theorem C5_counterexample :
    activeShiftFor noShiftWorld 1 = none ∧
    (updateRideStatus noShiftWorld ⟨1, .driver⟩ "accepted").2 = none ∧
    (updateRideStatus noShiftWorld ⟨1, .driver⟩ "accepted").1.ride.status = .accepted ∧
    (updateRideStatus noShiftWorld ⟨1, .driver⟩ "accepted").1.ride.shift = none := by
  refine ⟨by simp [activeShiftFor, shiftFindOne, noShiftWorld], ?_, ?_, ?_⟩ <;>
    simp [updateRideStatus, noShiftWorld, assignedRide]

/-! ## C9 — rollback on reassignment failure -/

/-- C9 (corrected): every reassignment failure leaves the ride itself
unchanged, and failures detected before any write (missing driver id,
status ≠ assigned) leave availability unchanged too; but the old driver
is freed with an immediate write *before* the new driver is validated,
so when the new-driver check fails (`INVALID_DRIVER` / `DRIVER_NOT_FREE`)
the old driver's availability has already been set to free — the
operation is not fully rolled back. -/
theorem C9_theorem :
    (∀ (w : World) (nd : Option ℕ),
        (reassignRide w nd).2 ≠ none → (reassignRide w nd).1.ride = w.ride) ∧
    (∀ (w : World), reassignRide w none = (w, some .VALIDATION_ERROR)) ∧
    (∀ (w : World) (nd : ℕ), w.ride.status ≠ .assigned →
        reassignRide w (some nd) = (w, some .INVALID_TRANSITION)) ∧
    (∀ (w : World) (nd od : ℕ),
        w.ride.status = .assigned → w.ride.driver = some od →
        w.roleOf nd ≠ some .driver →
        reassignRide w (some nd) =
          ({ w with avail := setAvail w.avail od .free }, some .INVALID_DRIVER)) ∧
    (∀ (w : World) (nd od : ℕ),
        w.ride.status = .assigned → w.ride.driver = some od →
        w.roleOf nd = some .driver →
        setAvail w.avail od .free nd ≠ .free →
        reassignRide w (some nd) =
          ({ w with avail := setAvail w.avail od .free }, some .DRIVER_NOT_FREE)) ∧
    (∀ (w : World) (nd od : ℕ),
        w.ride.status = .assigned → w.ride.driver = some od →
        w.roleOf nd = some .driver →
        setAvail w.avail od .free nd = .free →
        reassignRide w (some nd) =
          ({ w with
              ride := { w.ride with driver := some nd }
              avail := setAvail (setAvail w.avail od .free) nd .on_ride }, none)) := by
  refine ⟨?_, ?_, ?_, ?_, ?_, ?_⟩
  · intro w nd h
    cases nd with
    | none => rfl
    | some nd =>
      by_cases hst : w.ride.status = .assigned
      · cases hd : w.ride.driver with
        | none => simp [reassignRide, hst, hd]
        | some od =>
          by_cases hr : w.roleOf nd = some .driver
          · by_cases hfree : setAvail w.avail od .free nd = .free
            · simp [reassignRide, hst, hd, hr, hfree] at h
            · simp [reassignRide, hst, hd, hr, hfree]
          · simp [reassignRide, hst, hd, hr]
      · simp [reassignRide, hst]
  · intro w; rfl
  · intro w nd hst; simp [reassignRide, hst]
  · intro w nd od hst hd hr; simp [reassignRide, hst, hd, hr]
  · intro w nd od hst hd hr hfree; simp [reassignRide, hst, hd, hr, hfree]
  · intro w nd od hst hd hr hfree; simp [reassignRide, hst, hd, hr, hfree]

theorem C9_witness :
    bothBusyWorld.ride.status = .assigned ∧
    bothBusyWorld.ride.driver = some 1 ∧
    bothBusyWorld.roleOf 2 = some .driver ∧
    setAvail bothBusyWorld.avail 1 .free 2 ≠ .free ∧
    reassignRide bothBusyWorld (some 2) =
      ({ bothBusyWorld with avail := setAvail bothBusyWorld.avail 1 .free },
       some .DRIVER_NOT_FREE) :=
  ⟨rfl, rfl, rfl,
   by simp [setAvail, bothBusyWorld, noShiftWorld],
   C9_theorem.2.2.2.2.1 bothBusyWorld 2 1 rfl rfl rfl
     (by simp [setAvail, bothBusyWorld, noShiftWorld])⟩

/-- C9 fails as stated: reassigning the ride of (busy) driver 1 to driver
2, who is not free, fails the new-driver check — yet driver 1's
availability has already been flipped from on_ride to free, so state is
not left unchanged on a failed validation. -/
theorem C9_counterexample :
    (reassignRide bothBusyWorld (some 2)).2 = some .DRIVER_NOT_FREE ∧
    bothBusyWorld.avail 1 = .on_ride ∧
    (reassignRide bothBusyWorld (some 2)).1.avail 1 = .free ∧
    (reassignRide bothBusyWorld (some 2)).1.ride = bothBusyWorld.ride := by
  refine ⟨?_, by simp [bothBusyWorld, noShiftWorld], ?_, ?_⟩ <;>
    simp [reassignRide, bothBusyWorld, noShiftWorld, assignedRide, setAvail]

/-! ## C3 — fare recomputation on completion -/

set_option maxHeartbeats 2000000 in
/-- C3 (corrected): a successful `dropRide` completes the ride with
`perPerson = toFixed2(total / clientCount)` over the final total and the
final client list (late-added clients included), `halfFare =
toFixed2(total / 2)`, and `gst = calculateGST(perPerson)`; a successful
quick-trip completion has exactly one (newly created) client, so
`perPerson = total` and `gst = calculateGST(total)` — but its `halfFare`
is stored as the *unrounded* `total / 2`. -/
theorem C3_theorem :
    (∀ (w : World) (actor : Actor) (a : DropArgs),
        (dropRide w actor a).2 = none →
        (dropRide w actor a).1.ride.status = .completed ∧
        (dropRide w actor a).1.ride.fare.perPerson =
          (if 0 < (dropRide w actor a).1.ride.clients.length then
            toFixed2 ((dropRide w actor a).1.ride.fare.total /
              ((dropRide w actor a).1.ride.clients.length : ℚ))
          else 0) ∧
        (dropRide w actor a).1.ride.fare.halfFare =
          toFixed2 ((dropRide w actor a).1.ride.fare.total / 2) ∧
        (dropRide w actor a).1.ride.fare.gst =
          calculateGST ((dropRide w actor a).1.ride.fare.perPerson)
            ((dropRide w actor a).1.gstDivisor)) ∧
    (∀ (w : World) (actor : Actor) (a : QuickTripArgs),
        (completeQuickTripDetails w actor a).2 = none →
        (completeQuickTripDetails w actor a).1.ride.status = .completed ∧
        (completeQuickTripDetails w actor a).1.ride.clients.length = 1 ∧
        (completeQuickTripDetails w actor a).1.ride.fare.perPerson =
          (completeQuickTripDetails w actor a).1.ride.fare.total ∧
        (completeQuickTripDetails w actor a).1.ride.fare.halfFare =
          (completeQuickTripDetails w actor a).1.ride.fare.total / 2 ∧
        (completeQuickTripDetails w actor a).1.ride.fare.gst =
          calculateGST ((completeQuickTripDetails w actor a).1.ride.fare.total)
            ((completeQuickTripDetails w actor a).1.gstDivisor)) := by
  constructor
  · intro w actor a h
    rcases hE : dropRide w actor a with ⟨w1, res⟩
    rw [hE] at h
    simp only at h
    subst h
    simp only [hE]
    unfold dropRide at hE
    iterate 20 (all_goals try (first | split at hE | (dsimp only at hE; split at hE)))
    all_goals simp only [Prod.mk.injEq] at hE
    all_goals first
      | (obtain ⟨hw, hn⟩ := hE
         subst hw
         simp [dropRideCommit, calculateGST]
         done)
      | (obtain ⟨-, hbad⟩ := hE
         cases hbad)
  · intro w actor a h
    rcases hE : completeQuickTripDetails w actor a with ⟨w1, res⟩
    rw [hE] at h
    simp only at h
    subst h
    simp only [hE]
    unfold completeQuickTripDetails at hE
    iterate 20 (all_goals try (first | split at hE | (dsimp only at hE; split at hE)))
    all_goals simp only [Prod.mk.injEq] at hE
    all_goals first
      | (obtain ⟨hw, hn⟩ := hE
         subst hw
         simp [quickTripCommit, calculateGST]
         done)
      | (obtain ⟨-, hbad⟩ := hE
         cases hbad)

theorem C3_witness :
    (dropRide startedWorld ⟨1, .driver⟩ dropArgs100).2 = none ∧
    (dropRide startedWorld ⟨1, .driver⟩ dropArgs100).1.ride.fare.total = 100 ∧
    (dropRide startedWorld ⟨1, .driver⟩ dropArgs100).1.ride.clients.length = 4 ∧
    (dropRide startedWorld ⟨1, .driver⟩ dropArgs100).1.ride.fare.perPerson = 25 ∧
    (dropRide startedWorld ⟨1, .driver⟩ dropArgs100).1.ride.fare.halfFare = 50 ∧
    ((dropRide startedWorld ⟨1, .driver⟩ dropArgs100).1.ride.status = .completed ∧
      (dropRide startedWorld ⟨1, .driver⟩ dropArgs100).1.ride.fare.perPerson =
        (if 0 < (dropRide startedWorld ⟨1, .driver⟩ dropArgs100).1.ride.clients.length then
          toFixed2 ((dropRide startedWorld ⟨1, .driver⟩ dropArgs100).1.ride.fare.total /
            ((dropRide startedWorld ⟨1, .driver⟩ dropArgs100).1.ride.clients.length : ℚ))
        else 0) ∧
      (dropRide startedWorld ⟨1, .driver⟩ dropArgs100).1.ride.fare.halfFare =
        toFixed2 ((dropRide startedWorld ⟨1, .driver⟩ dropArgs100).1.ride.fare.total / 2) ∧
      (dropRide startedWorld ⟨1, .driver⟩ dropArgs100).1.ride.fare.gst =
        calculateGST ((dropRide startedWorld ⟨1, .driver⟩ dropArgs100).1.ride.fare.perPerson)
          ((dropRide startedWorld ⟨1, .driver⟩ dropArgs100).1.gstDivisor)) := by
  have h2 : (dropRide startedWorld ⟨1, .driver⟩ dropArgs100).2 = none := by
    simp [dropRide, dropRideCommit, startedWorld, assignedRide, dropArgs100,
      activeShiftFor, shiftFindOne, matchesCond, condField, shiftSchemaFields] <;>
      norm_num
  refine ⟨h2, ?_, ?_, ?_, ?_, C3_theorem.1 startedWorld ⟨1, .driver⟩ dropArgs100 h2⟩ <;>
    (simp [dropRide, dropRideCommit, startedWorld, assignedRide, dropArgs100,
      activeShiftFor, shiftFindOne, matchesCond, condField, shiftSchemaFields,
      calculateGST] <;> norm_num [toFixed2])

/-- C3 fails as stated on the quick-trip completion path: completing a
quick trip with fare total 0.05 succeeds and stores
`halfFare = 0.025` — the unrounded `total / 2` — which is not the
2-decimal rounding `toFixed2(0.05 / 2) = 0.03`. -/
theorem C3_counterexample :
    (completeQuickTripDetails quickTripWorld ⟨1, .driver⟩ qtArgsTiny).2 = none ∧
    (completeQuickTripDetails quickTripWorld ⟨1, .driver⟩ qtArgsTiny).1.ride.fare.total =
      1 / 20 ∧
    (completeQuickTripDetails quickTripWorld ⟨1, .driver⟩ qtArgsTiny).1.ride.fare.halfFare =
      1 / 40 ∧
    (1 / 40 : ℚ) ≠ toFixed2 (1 / 20 / 2) := by
  refine ⟨?_, ?_, ?_, by norm_num [toFixed2]⟩ <;>
    (simp [completeQuickTripDetails, quickTripCommit, quickTripWorld, startedWorld,
      assignedRide, qtArgsTiny, calculateGST] <;> norm_num)

/-! ## C4 — the ride state machine moves only along the §4.1 table -/

theorem tableEdge_of_mem_cancelled {st : RideStatus}
    (h : st = .assigned ∨ st = .accepted ∨ st = .started) :
    tableEdge st .cancelled = true := by
  rcases h with h | h | h <;> subst h <;> rfl

theorem tableEdge_of_mem_aborted {st : RideStatus}
    (h : st = .assigned ∨ st = .accepted) :
    tableEdge st .aborted = true := by
  rcases h with h | h <;> subst h <;> rfl

theorem updateRideStatus_edges (w : World) (actor : Actor) (t : String)
    (w1 : World) (res : Option ErrCode) (hE : updateRideStatus w actor t = (w1, res)) :
    w1.ride.status = w.ride.status ∨ tableEdge w.ride.status w1.ride.status = true := by
  unfold updateRideStatus at hE
  iterate 10 (all_goals try (first | split at hE | (dsimp only at hE; split at hE)))
  all_goals simp only [Prod.mk.injEq] at hE
  all_goals obtain ⟨hw, -⟩ := hE
  all_goals subst hw
  all_goals first
    | exact Or.inl rfl
    | (apply Or.inr
       first
         | (simp_all [tableEdge]; done)
         | exact tableEdge_of_mem_cancelled (by simp_all <;> tauto)
         | exact tableEdge_of_mem_aborted (by simp_all <;> tauto))

theorem updateRideStatus_err_frozen (w : World) (actor : Actor) (t : String)
    (w1 : World) (res : Option ErrCode) (hE : updateRideStatus w actor t = (w1, res)) :
    res ≠ none → w1.ride = w.ride := by
  unfold updateRideStatus at hE
  iterate 10 (all_goals try (first | split at hE | (dsimp only at hE; split at hE)))
  all_goals simp only [Prod.mk.injEq] at hE
  all_goals obtain ⟨hw, hr⟩ := hE
  all_goals subst hw
  all_goals subst hr
  all_goals intro hres
  all_goals first | rfl | simp_all

theorem acceptRide_edges (w : World) (actor : Actor)
    (w1 : World) (res : Option ErrCode) (hE : acceptRide w actor = (w1, res)) :
    w1.ride.status = w.ride.status ∨ tableEdge w.ride.status w1.ride.status = true := by
  unfold acceptRide at hE
  iterate 10 (all_goals try (first | split at hE | (dsimp only at hE; split at hE)))
  all_goals simp only [Prod.mk.injEq] at hE
  all_goals obtain ⟨hw, -⟩ := hE
  all_goals subst hw
  all_goals first
    | exact Or.inl rfl
    | (apply Or.inr; simp_all [tableEdge])

theorem acceptRide_err_frozen (w : World) (actor : Actor)
    (w1 : World) (res : Option ErrCode) (hE : acceptRide w actor = (w1, res)) :
    res ≠ none → w1.ride = w.ride := by
  unfold acceptRide at hE
  iterate 10 (all_goals try (first | split at hE | (dsimp only at hE; split at hE)))
  all_goals simp only [Prod.mk.injEq] at hE
  all_goals obtain ⟨hw, hr⟩ := hE
  all_goals subst hw
  all_goals subst hr
  all_goals intro hres
  all_goals first | rfl | simp_all

theorem rejectRide_edges (w : World) (actor : Actor)
    (w1 : World) (res : Option ErrCode) (hE : rejectRide w actor = (w1, res)) :
    w1.ride.status = w.ride.status ∨ tableEdge w.ride.status w1.ride.status = true := by
  unfold rejectRide at hE
  iterate 10 (all_goals try (first | split at hE | (dsimp only at hE; split at hE)))
  all_goals simp only [Prod.mk.injEq] at hE
  all_goals obtain ⟨hw, -⟩ := hE
  all_goals subst hw
  all_goals first
    | exact Or.inl rfl
    | (apply Or.inr; simp_all [tableEdge])

theorem rejectRide_err_frozen (w : World) (actor : Actor)
    (w1 : World) (res : Option ErrCode) (hE : rejectRide w actor = (w1, res)) :
    res ≠ none → w1.ride = w.ride := by
  unfold rejectRide at hE
  iterate 10 (all_goals try (first | split at hE | (dsimp only at hE; split at hE)))
  all_goals simp only [Prod.mk.injEq] at hE
  all_goals obtain ⟨hw, hr⟩ := hE
  all_goals subst hw
  all_goals subst hr
  all_goals intro hres
  all_goals first | rfl | simp_all

theorem startRide_edges (w : World) (actor : Actor)
    (w1 : World) (res : Option ErrCode) (hE : startRide w actor = (w1, res)) :
    w1.ride.status = w.ride.status ∨ tableEdge w.ride.status w1.ride.status = true := by
  unfold startRide at hE
  iterate 10 (all_goals try (first | split at hE | (dsimp only at hE; split at hE)))
  all_goals simp only [Prod.mk.injEq] at hE
  all_goals obtain ⟨hw, -⟩ := hE
  all_goals subst hw
  all_goals first
    | exact Or.inl rfl
    | (apply Or.inr; simp_all [tableEdge])

theorem startRide_err_frozen (w : World) (actor : Actor)
    (w1 : World) (res : Option ErrCode) (hE : startRide w actor = (w1, res)) :
    res ≠ none → w1.ride = w.ride := by
  unfold startRide at hE
  iterate 10 (all_goals try (first | split at hE | (dsimp only at hE; split at hE)))
  all_goals simp only [Prod.mk.injEq] at hE
  all_goals obtain ⟨hw, hr⟩ := hE
  all_goals subst hw
  all_goals subst hr
  all_goals intro hres
  all_goals first | rfl | simp_all

set_option maxHeartbeats 4000000 in
theorem dropRide_edges (w : World) (actor : Actor) (a : DropArgs)
    (w1 : World) (res : Option ErrCode) (hE : dropRide w actor a = (w1, res)) :
    w1.ride.status = w.ride.status ∨ tableEdge w.ride.status w1.ride.status = true := by
  unfold dropRide at hE
  iterate 20 (all_goals try (first | split at hE | (dsimp only at hE; split at hE)))
  all_goals simp only [Prod.mk.injEq] at hE
  all_goals obtain ⟨hw, -⟩ := hE
  all_goals subst hw
  all_goals first
    | exact Or.inl rfl
    | (apply Or.inr; simp_all [tableEdge, dropRideCommit])

set_option maxHeartbeats 4000000 in
theorem dropRide_err_frozen (w : World) (actor : Actor) (a : DropArgs)
    (w1 : World) (res : Option ErrCode) (hE : dropRide w actor a = (w1, res)) :
    res ≠ none → w1.ride = w.ride := by
  unfold dropRide at hE
  iterate 20 (all_goals try (first | split at hE | (dsimp only at hE; split at hE)))
  all_goals simp only [Prod.mk.injEq] at hE
  all_goals obtain ⟨hw, hr⟩ := hE
  all_goals subst hw
  all_goals subst hr
  all_goals intro hres
  all_goals first | rfl | simp_all

theorem cancelOngoingRide_edges (w : World) (actor : Actor) (reason : String)
    (w1 : World) (res : Option ErrCode) (hE : cancelOngoingRide w actor reason = (w1, res)) :
    w1.ride.status = w.ride.status ∨ tableEdge w.ride.status w1.ride.status = true := by
  unfold cancelOngoingRide at hE
  iterate 10 (all_goals try (first | split at hE | (dsimp only at hE; split at hE)))
  all_goals simp only [Prod.mk.injEq] at hE
  all_goals obtain ⟨hw, -⟩ := hE
  all_goals subst hw
  all_goals first
    | exact Or.inl rfl
    | (apply Or.inr
       first
         | (simp_all [tableEdge]; done)
         | exact tableEdge_of_mem_cancelled (by simp_all <;> tauto))

theorem cancelOngoingRide_err_frozen (w : World) (actor : Actor) (reason : String)
    (w1 : World) (res : Option ErrCode) (hE : cancelOngoingRide w actor reason = (w1, res)) :
    res ≠ none → w1.ride = w.ride := by
  unfold cancelOngoingRide at hE
  iterate 10 (all_goals try (first | split at hE | (dsimp only at hE; split at hE)))
  all_goals simp only [Prod.mk.injEq] at hE
  all_goals obtain ⟨hw, hr⟩ := hE
  all_goals subst hw
  all_goals subst hr
  all_goals intro hres
  all_goals first | rfl | simp_all

theorem abortRide_edges (w : World) (actor : Actor) (reason : String)
    (w1 : World) (res : Option ErrCode) (hE : abortRide w actor reason = (w1, res)) :
    w1.ride.status = w.ride.status ∨ tableEdge w.ride.status w1.ride.status = true := by
  unfold abortRide at hE
  iterate 10 (all_goals try (first | split at hE | (dsimp only at hE; split at hE)))
  all_goals simp only [Prod.mk.injEq] at hE
  all_goals obtain ⟨hw, -⟩ := hE
  all_goals subst hw
  all_goals first
    | exact Or.inl rfl
    | (apply Or.inr
       first
         | (simp_all [tableEdge]; done)
         | exact tableEdge_of_mem_aborted (by simp_all <;> tauto))

theorem abortRide_err_frozen (w : World) (actor : Actor) (reason : String)
    (w1 : World) (res : Option ErrCode) (hE : abortRide w actor reason = (w1, res)) :
    res ≠ none → w1.ride = w.ride := by
  unfold abortRide at hE
  iterate 10 (all_goals try (first | split at hE | (dsimp only at hE; split at hE)))
  all_goals simp only [Prod.mk.injEq] at hE
  all_goals obtain ⟨hw, hr⟩ := hE
  all_goals subst hw
  all_goals subst hr
  all_goals intro hres
  all_goals first | rfl | simp_all

set_option maxHeartbeats 4000000 in
theorem completeQuickTripDetails_edges (w : World) (actor : Actor) (a : QuickTripArgs)
    (w1 : World) (res : Option ErrCode)
    (hE : completeQuickTripDetails w actor a = (w1, res)) :
    w1.ride.status = w.ride.status ∨ tableEdge w.ride.status w1.ride.status = true := by
  unfold completeQuickTripDetails at hE
  iterate 20 (all_goals try (first | split at hE | (dsimp only at hE; split at hE)))
  all_goals simp only [Prod.mk.injEq] at hE
  all_goals obtain ⟨hw, -⟩ := hE
  all_goals subst hw
  all_goals first
    | exact Or.inl rfl
    | (apply Or.inr; simp_all [tableEdge, quickTripCommit])

set_option maxHeartbeats 4000000 in
theorem completeQuickTripDetails_err_frozen (w : World) (actor : Actor) (a : QuickTripArgs)
    (w1 : World) (res : Option ErrCode)
    (hE : completeQuickTripDetails w actor a = (w1, res)) :
    w.ride.driver ≠ none → res ≠ none → w1.ride = w.ride := by
  unfold completeQuickTripDetails at hE
  iterate 20 (all_goals try (first | split at hE | (dsimp only at hE; split at hE)))
  all_goals simp only [Prod.mk.injEq] at hE
  all_goals obtain ⟨hw, hr⟩ := hE
  all_goals subst hw
  all_goals subst hr
  all_goals intro hdrv hres
  all_goals first | rfl | simp_all

theorem reassignRide_edges (w : World) (nd : Option ℕ)
    (w1 : World) (res : Option ErrCode) (hE : reassignRide w nd = (w1, res)) :
    w1.ride.status = w.ride.status ∨ tableEdge w.ride.status w1.ride.status = true := by
  unfold reassignRide at hE
  iterate 10 (all_goals try (first | split at hE | (dsimp only at hE; split at hE)))
  all_goals simp only [Prod.mk.injEq] at hE
  all_goals obtain ⟨hw, -⟩ := hE
  all_goals subst hw
  all_goals exact Or.inl rfl

theorem acceptRide_out_of_table (w : World) (actor : Actor)
    (hd : w.ride.driver = some actor.id)
    (he : tableEdge w.ride.status .accepted = false) :
    acceptRide w actor = (w, some .INVALID_STATUS) := by
  cases hst : w.ride.status <;> simp_all [acceptRide, tableEdge]

theorem rejectRide_out_of_table (w : World) (actor : Actor)
    (hd : w.ride.driver = some actor.id)
    (he : tableEdge w.ride.status .rejected = false) :
    rejectRide w actor = (w, some .INVALID_STATUS) := by
  cases hst : w.ride.status <;> simp_all [rejectRide, tableEdge]

theorem startRide_out_of_table (w : World) (actor : Actor)
    (hd : w.ride.driver = some actor.id)
    (he : tableEdge w.ride.status .started = false) :
    startRide w actor = (w, some .INVALID_STATUS) := by
  cases hst : w.ride.status <;> simp_all [startRide, tableEdge]

theorem dropRide_out_of_table (w : World) (actor : Actor) (a : DropArgs)
    (hd : w.ride.driver = some actor.id)
    (he : tableEdge w.ride.status .completed = false) :
    dropRide w actor a = (w, some .INVALID_STATUS) := by
  cases hst : w.ride.status <;> simp_all [dropRide, tableEdge]

theorem cancelOngoingRide_out_of_table (w : World) (actor : Actor) (reason : String)
    (hr1 : reason ≠ "") (hr2 : validCancelReasons.contains reason = true)
    (hd : w.ride.driver = some actor.id)
    (he : tableEdge w.ride.status .cancelled = false) :
    cancelOngoingRide w actor reason = (w, some .INVALID_STATUS) := by
  cases hst : w.ride.status <;> simp_all [cancelOngoingRide, tableEdge]

theorem abortRide_out_of_table (w : World) (actor : Actor) (reason : String)
    (hr1 : reason ≠ "") (hr2 : validAbortReasons.contains reason = true)
    (hrole : actor.role = .manager)
    (he : tableEdge w.ride.status .aborted = false) :
    abortRide w actor reason = (w, some .INVALID_STATUS) := by
  cases hst : w.ride.status <;> simp_all [abortRide, tableEdge]

theorem completeQuickTripDetails_out_of_table (w : World) (actor : Actor)
    (a : QuickTripArgs) (hq : w.ride.isQuickTrip = true) (hrole : actor.role = .driver)
    (hd : w.ride.driver = some actor.id)
    (he : tableEdge w.ride.status .completed = false) :
    completeQuickTripDetails w actor a = (w, some .INVALID_STATUS) := by
  cases hst : w.ride.status <;> simp_all [completeQuickTripDetails, tableEdge]

theorem updateRideStatus_unsupported_target (w : World) (actor : Actor) (t : String)
    (h : t ∉ (["accepted", "cancelled", "completed"] : List String)) :
    updateRideStatus w actor t = (w, some .VALIDATION_ERROR) := by
  simp [updateRideStatus, h]

theorem updateRideStatus_out_accepted (w : World) (actor : Actor)
    (hd : w.ride.driver = some actor.id)
    (he : tableEdge w.ride.status .accepted = false) :
    updateRideStatus w actor "accepted" = (w, some .INVALID_TRANSITION) := by
  cases hrole : actor.role <;> cases hst : w.ride.status <;>
    simp_all [updateRideStatus, tableEdge]

theorem updateRideStatus_out_cancelled (w : World) (actor : Actor)
    (hd : w.ride.driver = some actor.id)
    (he : tableEdge w.ride.status .cancelled = false) :
    updateRideStatus w actor "cancelled" = (w, some .INVALID_TRANSITION) := by
  cases hrole : actor.role <;> cases hst : w.ride.status <;>
    simp_all [updateRideStatus, tableEdge]

theorem updateRideStatus_out_completed (w : World) (actor : Actor)
    (hd : w.ride.driver = some actor.id)
    (he : tableEdge w.ride.status .completed = false) :
    updateRideStatus w actor "completed" = (w, some .INVALID_TRANSITION) := by
  cases hrole : actor.role <;> cases hst : w.ride.status <;>
    simp_all [updateRideStatus, tableEdge]

/-- C4 (corrected): across every modelled status-changing endpoint, a
ride's status only moves along the §4.1 table's edges, and a failed
request leaves the stored ride unchanged (for quick-trip completion this
needs the ride to have a driver: with a null driver the handler throws
*after* the completing save).  Transition attempts outside the table by
an authorized actor with valid request arguments are rejected with
`INVALID_STATUS` on the per-action endpoints and `INVALID_TRANSITION` on
the generic endpoint — except that the generic endpoint answers target
statuses outside accepted/cancelled/completed with `VALIDATION_ERROR`,
not `INVALID_TRANSITION`/`INVALID_STATUS`. -/
theorem C4_theorem :
    (∀ (w : World) (actor : Actor),
        w.ride.driver = some actor.id →
        tableEdge w.ride.status .accepted = false →
        acceptRide w actor = (w, some .INVALID_STATUS)) ∧
    (∀ (w : World) (actor : Actor),
        w.ride.driver = some actor.id →
        tableEdge w.ride.status .rejected = false →
        rejectRide w actor = (w, some .INVALID_STATUS)) ∧
    (∀ (w : World) (actor : Actor),
        w.ride.driver = some actor.id →
        tableEdge w.ride.status .started = false →
        startRide w actor = (w, some .INVALID_STATUS)) ∧
    (∀ (w : World) (actor : Actor) (a : DropArgs),
        w.ride.driver = some actor.id →
        tableEdge w.ride.status .completed = false →
        dropRide w actor a = (w, some .INVALID_STATUS)) ∧
    (∀ (w : World) (actor : Actor) (reason : String),
        reason ≠ "" → validCancelReasons.contains reason = true →
        w.ride.driver = some actor.id →
        tableEdge w.ride.status .cancelled = false →
        cancelOngoingRide w actor reason = (w, some .INVALID_STATUS)) ∧
    (∀ (w : World) (actor : Actor) (reason : String),
        reason ≠ "" → validAbortReasons.contains reason = true →
        actor.role = .manager →
        tableEdge w.ride.status .aborted = false →
        abortRide w actor reason = (w, some .INVALID_STATUS)) ∧
    (∀ (w : World) (actor : Actor) (a : QuickTripArgs),
        w.ride.isQuickTrip = true → actor.role = .driver →
        w.ride.driver = some actor.id →
        tableEdge w.ride.status .completed = false →
        completeQuickTripDetails w actor a = (w, some .INVALID_STATUS)) ∧
    (∀ (w : World) (actor : Actor) (t : String),
        t ∉ (["accepted", "cancelled", "completed"] : List String) →
        updateRideStatus w actor t = (w, some .VALIDATION_ERROR)) ∧
    (∀ (w : World) (actor : Actor),
        w.ride.driver = some actor.id →
        tableEdge w.ride.status .accepted = false →
        updateRideStatus w actor "accepted" = (w, some .INVALID_TRANSITION)) ∧
    (∀ (w : World) (actor : Actor),
        w.ride.driver = some actor.id →
        tableEdge w.ride.status .cancelled = false →
        updateRideStatus w actor "cancelled" = (w, some .INVALID_TRANSITION)) ∧
    (∀ (w : World) (actor : Actor),
        w.ride.driver = some actor.id →
        tableEdge w.ride.status .completed = false →
        updateRideStatus w actor "completed" = (w, some .INVALID_TRANSITION)) ∧
    (∀ (w : World) (actor : Actor) (t : String) (w1 : World) (res : Option ErrCode),
        updateRideStatus w actor t = (w1, res) →
        (w1.ride.status = w.ride.status ∨
          tableEdge w.ride.status w1.ride.status = true) ∧
        (res ≠ none → w1.ride = w.ride)) ∧
    (∀ (w : World) (actor : Actor) (w1 : World) (res : Option ErrCode),
        acceptRide w actor = (w1, res) →
        (w1.ride.status = w.ride.status ∨
          tableEdge w.ride.status w1.ride.status = true) ∧
        (res ≠ none → w1.ride = w.ride)) ∧
    (∀ (w : World) (actor : Actor) (w1 : World) (res : Option ErrCode),
        rejectRide w actor = (w1, res) →
        (w1.ride.status = w.ride.status ∨
          tableEdge w.ride.status w1.ride.status = true) ∧
        (res ≠ none → w1.ride = w.ride)) ∧
    (∀ (w : World) (actor : Actor) (w1 : World) (res : Option ErrCode),
        startRide w actor = (w1, res) →
        (w1.ride.status = w.ride.status ∨
          tableEdge w.ride.status w1.ride.status = true) ∧
        (res ≠ none → w1.ride = w.ride)) ∧
    (∀ (w : World) (actor : Actor) (a : DropArgs) (w1 : World) (res : Option ErrCode),
        dropRide w actor a = (w1, res) →
        (w1.ride.status = w.ride.status ∨
          tableEdge w.ride.status w1.ride.status = true) ∧
        (res ≠ none → w1.ride = w.ride)) ∧
    (∀ (w : World) (actor : Actor) (reason : String) (w1 : World) (res : Option ErrCode),
        cancelOngoingRide w actor reason = (w1, res) →
        (w1.ride.status = w.ride.status ∨
          tableEdge w.ride.status w1.ride.status = true) ∧
        (res ≠ none → w1.ride = w.ride)) ∧
    (∀ (w : World) (actor : Actor) (reason : String) (w1 : World) (res : Option ErrCode),
        abortRide w actor reason = (w1, res) →
        (w1.ride.status = w.ride.status ∨
          tableEdge w.ride.status w1.ride.status = true) ∧
        (res ≠ none → w1.ride = w.ride)) ∧
    (∀ (w : World) (actor : Actor) (a : QuickTripArgs) (w1 : World) (res : Option ErrCode),
        completeQuickTripDetails w actor a = (w1, res) →
        (w1.ride.status = w.ride.status ∨
          tableEdge w.ride.status w1.ride.status = true) ∧
        (w.ride.driver ≠ none → res ≠ none → w1.ride = w.ride)) ∧
    (∀ (w : World) (nd : Option ℕ) (w1 : World) (res : Option ErrCode),
        reassignRide w nd = (w1, res) →
        w1.ride.status = w.ride.status ∨
          tableEdge w.ride.status w1.ride.status = true) :=
  ⟨acceptRide_out_of_table, rejectRide_out_of_table, startRide_out_of_table,
   dropRide_out_of_table, cancelOngoingRide_out_of_table, abortRide_out_of_table,
   completeQuickTripDetails_out_of_table, updateRideStatus_unsupported_target,
   updateRideStatus_out_accepted, updateRideStatus_out_cancelled,
   updateRideStatus_out_completed,
   fun w actor t w1 res hE =>
     ⟨updateRideStatus_edges w actor t w1 res hE,
      updateRideStatus_err_frozen w actor t w1 res hE⟩,
   fun w actor w1 res hE =>
     ⟨acceptRide_edges w actor w1 res hE, acceptRide_err_frozen w actor w1 res hE⟩,
   fun w actor w1 res hE =>
     ⟨rejectRide_edges w actor w1 res hE, rejectRide_err_frozen w actor w1 res hE⟩,
   fun w actor w1 res hE =>
     ⟨startRide_edges w actor w1 res hE, startRide_err_frozen w actor w1 res hE⟩,
   fun w actor a w1 res hE =>
     ⟨dropRide_edges w actor a w1 res hE, dropRide_err_frozen w actor a w1 res hE⟩,
   fun w actor reason w1 res hE =>
     ⟨cancelOngoingRide_edges w actor reason w1 res hE,
      cancelOngoingRide_err_frozen w actor reason w1 res hE⟩,
   fun w actor reason w1 res hE =>
     ⟨abortRide_edges w actor reason w1 res hE,
      abortRide_err_frozen w actor reason w1 res hE⟩,
   fun w actor a w1 res hE =>
     ⟨completeQuickTripDetails_edges w actor a w1 res hE,
      completeQuickTripDetails_err_frozen w actor a w1 res hE⟩,
   reassignRide_edges⟩

theorem C4_witness :
    completedWorld.ride.driver = some 1 ∧
    tableEdge completedWorld.ride.status .accepted = false ∧
    acceptRide completedWorld ⟨1, .driver⟩ = (completedWorld, some .INVALID_STATUS) :=
  ⟨rfl, rfl, C4_theorem.1 completedWorld ⟨1, .driver⟩ rfl rfl⟩

/-- C4 fails as stated: requesting target status "started" on a
completed ride — a transition outside the table — via the generic
endpoint is pre-rejected with `VALIDATION_ERROR` (the ride is unchanged),
which is neither `INVALID_TRANSITION` nor `INVALID_STATUS`. -/
theorem C4_counterexample :
    tableEdge .completed .started = false ∧
    updateRideStatus completedWorld ⟨9, .admin⟩ "started" =
      (completedWorld, some .VALIDATION_ERROR) ∧
    (ErrCode.VALIDATION_ERROR ≠ ErrCode.INVALID_TRANSITION ∧
      ErrCode.VALIDATION_ERROR ≠ ErrCode.INVALID_STATUS) := by
  refine ⟨rfl, ?_, by simp, by simp⟩
  simp [updateRideStatus]

end Taxi
